import Mathlib

/-
Shallow embedding of the terminal card game engine from
src/cmd/terminal_game/terminal_game.py and src/cmd/terminal_game/ai_opponent.py.

Modelling conventions:
* Python dicts for cards / ice / run state are modelled as structures whose
  fields mirror the keys the code reads.  A key that is always read through
  dict.get with a default d is modelled as a plain field whose value is d when
  the key is absent (observationally equivalent).  A key read without a
  default, or whose absence is significant, is modelled as an Option.
* Python exceptions are modelled with Except PyErr; the code never mutates
  state between the start of an expression that can raise and the raise
  itself, so an error result carries no partial mutation of its own and the
  caller reconstructs the state that the in-place Python mutation would have
  left behind.
* The process-wide random generator is modelled as explicit streams inside
  the state (nats for randint/choice, floats for random(), shuffle for
  random.shuffle), with cursors advanced at each draw.  Theorems quantify
  over all streams, which over-approximates the real Mersenne Twister.
* Python's builtin hash on strings is salted per process (it is NOT
  controlled by random.seed), so it is modelled as an arbitrary function
  String -> Int supplied by the execution environment.
* Numeric card attributes (cost, mu, strength, ability values) are Nat:
  every card in the shipped catalog (card_data.py) uses non-negative values.
  Credits are Int because the code can drive them negative (stealth run).
-/

namespace TerminalGame

abbrev PyErr := String

/-- terminal_game.py:11-17 -/
inductive GamePhase
  | SETUP
  | START_TURN
  | ACTION
  | DISCARD
  | END_TURN
  | GAME_OVER
deriving DecidableEq, Repr

/-- The value of an ability's subroutines key: the string unlimited or a
number (terminal_game.py:362-364). A card whose ability dict has no
subroutines key is modelled with none here. -/
inductive SubLimit
  | unlimited
  | num (n : Nat)
deriving DecidableEq, Repr

/-- One entry of a permanent ability's effects list (terminal_game.py:287-289). -/
structure AbilityEffect where
  effect : Option String := none
  value : Nat := 0
deriving DecidableEq, Repr

/-- An ability dict as read by _process_card_ability.  Fields read through
dict.get with a default are stored with that default meaning absent. -/
structure Ability where
  type_ : Option String := none
  effect : Option String := none
  effects : List AbilityEffect := []
  value : Nat := 0
  trigger_ : Option String := none
  frequency : String := "always"
  count : Nat := 1
  ice_types : List String := []
  max_strength : Nat := 0
  subroutines : Option SubLimit := none
  resource_type : Option String := none
  usage : Option String := none
  target : String := "any"
deriving DecidableEq, Repr

/-- A card dict.  used_this_turn and counters are instance state written by
the engine (dict.get defaults false / 0 when absent). -/
structure Card where
  name : String
  type_ : String := ""
  cost : Nat := 0
  mu : Nat := 0
  strength : Nat := 0
  ability : Option Ability := none
  used_this_turn : Bool := false
  counters : Nat := 0
deriving DecidableEq, Repr

/-- An ICE dict as produced by _generate_ice_for_server (terminal_game.py:967-1003). -/
structure Ice where
  name : String
  type_ : String
  strength : Nat
  subroutines : List String
deriving DecidableEq, Repr

/-- The current_run dict (terminal_game.py:829-836). -/
structure RunState where
  server : String
  approach : String
  state : String
  ice_index : Nat
  current_ice : Option Ice
  ice_encountered : List Ice
deriving DecidableEq, Repr

/-- ai_opponent.py:9-13 -/
inductive AIStrategy
  | BALANCED
  | AGGRESSIVE
  | DEFENSIVE
  | ECONOMIC
deriving DecidableEq, Repr

/-- A card drawn by the AI (ai_opponent.py:201-206). -/
structure AICard where
  type_ : String
  name : String
deriving DecidableEq, Repr

/-- The card held in an AI remote server: an agenda with advancement state,
or an asset (ai_opponent.py:148-164). -/
inductive RemoteCard
  | agenda (advancement : Nat) (requirement : Nat)
  | asset
deriving DecidableEq, Repr

/-- One AI remote server (the name key is presentation-only and omitted). -/
structure RemoteServer where
  card : RemoteCard
deriving DecidableEq, Repr

/-- AIOpponent state (ai_opponent.py:18-39).  installed_ice and deck are
never read by the logic (only a key list used for a message) and omitted.
clicks is Int so that the claim that it never goes negative is contentful. -/
structure AIState where
  strategy : AIStrategy := AIStrategy.BALANCED
  credits : Int := 5
  clicks : Int := 3
  hand : List AICard := []
  remote_servers : List RemoteServer := []
  scored_agendas : List Nat := []
  discard : List AICard := []
deriving DecidableEq, Repr

/-- The explicit random streams standing for Python's process-wide
generator after random.seed(seed): nats backs randint/choice draws
(taken modulo the needed range), floats backs random(), shuffle is the
permutation random.shuffle applies to the freshly copied deck. -/
structure Rng where
  nats : Nat → Nat
  floats : Nat → Rat
  shuffle : List Card → List Card

/-- The whole mutable game object of class TerminalGame, plus the random
stream cursors and the environment's string hash. -/
structure GameState where
  rng : Rng := ⟨fun _ => 0, fun _ => 0, id⟩
  natIdx : Nat := 0
  floatIdx : Nat := 0
  pyHash : String → Int := fun _ => 0
  random_seed : Nat := 0
  player_credits : Int := 5
  memory_units_available : Nat := 4
  memory_units_used : Nat := 0
  current_phase : GamePhase := GamePhase.SETUP
  clicks_remaining : Nat := 0
  max_clicks : Nat := 4
  turn_number : Nat := 0
  active_player : Option String := none
  runner_agenda_points : Nat := 0
  corp_agenda_points : Nat := 0
  agenda_points_to_win : Nat := 7
  runner_cards_remaining : Int := 0
  corp_cards_remaining : Int := 30
  game_over : Bool := false
  win_message : String := ""
  player_deck : List Card := []
  hand_cards : List Card := []
  played_cards : List Card := []
  bypass_next_ice : Nat := 0
  next_run_untraceable : Bool := false
  current_run : Option RunState := none
  command_history : List String := []
  ai : AIState := {}

/-- The context dict passed to _process_card_ability. -/
structure AbilityCtx where
  ice : Option Ice := none
  action : Option String := none
  strength_bonus : Nat := 0
deriving DecidableEq, Repr

/-- Render an optional string the way a Python f-string renders None. -/
def pyShowOpt : Option String → String
  | some t => t
  | none => "None"

/-- str.lower, as a character-level map (kernel-reducible form of
String.toLower; the engine only lowercases ASCII command and type names). -/
def pyLower (s : String) : String := ⟨s.data.map Char.toLower⟩

/-- str.upper, as a character-level map. -/
def pyUpper (s : String) : String := ⟨s.data.map Char.toUpper⟩

/-- str slicing s[n:]. -/
def pyDrop (s : String) (n : Nat) : String := ⟨s.data.drop n⟩

def listIsPrefix : List Char → List Char → Bool
  | [], _ => true
  | _ :: _, [] => false
  | a :: as, b :: bs => a == b && listIsPrefix as bs

/-- str.startswith. -/
def pyStartsWith (s pre : String) : Bool := listIsPrefix pre.data s.data

def listContainsSub : List Char → List Char → Bool
  | [], needle => needle.isEmpty
  | h :: t, needle => listIsPrefix needle (h :: t) || listContainsSub t needle

/-- Python substring test: needle in hay. -/
def pyContains (hay needle : String) : Bool := listContainsSub hay.data needle.data

def digitsToNatAux : List Char → Nat → Option Nat
  | [], acc => some acc
  | c :: cs, acc => if c.isDigit then digitsToNatAux cs (acc * 10 + (c.toNat - 48)) else none

/-- Python int(str) on the argument forms the game can meet: an optional
minus sign followed by decimal digits; anything else raises ValueError,
modelled as none. -/
def pyParseInt (s : String) : Option Int :=
  match s.data with
  | [] => none
  | '-' :: rest =>
    (match rest with
     | [] => none
     | _ => (digitsToNatAux rest 0).map (fun n => -(n : Int)))
  | cs => (digitsToNatAux cs 0).map (fun n => (n : Int))

/-- One step of the multiple-effects loop of a permanent ability
(terminal_game.py:286-296): the accumulator is the game state plus the
collected messages. -/
def permEffectStep (acc : GameState × List String) (e : AbilityEffect) :
    GameState × List String :=
  if e.effect = some "increase_memory" then
    ({ acc.1 with memory_units_available := acc.1.memory_units_available + e.value },
     acc.2 ++ ["Memory capacity increased by " ++ toString e.value ++ " units"])
  else if e.effect = some "increase_hand_size" then
    (acc.1, acc.2 ++ ["Hand size increased by " ++ toString e.value])
  else acc

/-- The permanent arm of _process_card_ability (terminal_game.py:272-296). -/
def processPermanent (s : GameState) (ability : Ability) (card : Card)
    (trigger : Option String) : Except PyErr (GameState × Card × Option String) :=
  if trigger = some "install" then
    if ability.effects.isEmpty then
      if ability.effect = some "increase_memory" then
        .ok ({ s with memory_units_available := s.memory_units_available + ability.value },
             card, some ("Memory capacity increased by " ++ toString ability.value ++ " units"))
      else if ability.effect = some "increase_hand_size" then
        .ok (s, card, some ("Hand size increased by " ++ toString ability.value))
      else .ok (s, card, none)
    else
      .ok ((ability.effects.foldl permEffectStep (s, [])).1, card,
           if (ability.effects.foldl permEffectStep (s, [])).2.isEmpty then none
           else some (String.intercalate "; " (ability.effects.foldl permEffectStep (s, [])).2))
  else .ok (s, card, none)

/-- The trigger arm of _process_card_ability (terminal_game.py:298-319). -/
def processTrigger (s : GameState) (ability : Ability) (card : Card)
    (trigger : Option String) : Except PyErr (GameState × Card × Option String) :=
  if trigger = ability.trigger_ then
    if ability.frequency == "per_turn" && card.used_this_turn then
      .ok (s, card, none)
    else if ability.effect = some "gain_credits" then
      .ok ({ s with player_credits := s.player_credits + ability.value },
           { card with used_this_turn := true },
           some ("Gained " ++ toString ability.value ++ " credits from " ++ card.name))
    else if ability.effect = some "draw" then
      -- terminal_game.py:316 calls self._draw_card, a method that does not
      -- exist on class TerminalGame: Python raises AttributeError here.
      .error "AttributeError: TerminalGame object has no attribute _draw_card"
    else .ok (s, card, none)
  else .ok (s, card, none)

/-- The one_time arm of _process_card_ability (terminal_game.py:321-339). -/
def processOneTime (s : GameState) (ability : Ability) (card : Card)
    (trigger : Option String) : Except PyErr (GameState × Card × Option String) :=
  if trigger = some "play" then
    if ability.effect = some "bypass_ice" then
      .ok ({ s with bypass_next_ice := ability.count }, card,
           some ("Next " ++ toString ability.count ++ " ice will be bypassed"))
    else if ability.effect = some "untraceable_run" then
      .ok ({ s with next_run_untraceable := true }, card,
           some "Next run this turn will be untraceable")
    else if ability.effect = some "run" then
      .ok (s, card, some ("Initiated a run on " ++ ability.target))
    else .ok (s, card, none)
  else .ok (s, card, none)

/-- The break_ice arm of _process_card_ability (terminal_game.py:341-368). -/
def processBreakIce (s : GameState) (ability : Ability) (card : Card)
    (trigger : Option String) (ctx : Option AbilityCtx) :
    Except PyErr (GameState × Card × Option String) :=
  if trigger = some "encounter_ice" then
    match ctx with
    | none =>
      -- terminal_game.py:344 does context.get with context = None.
      .error "AttributeError: NoneType object has no attribute get"
    | some c =>
      match c.ice with
      | none => .ok (s, card, none)
      | some ice =>
        if !(ability.ice_types.contains "all") && !(ability.ice_types.contains ice.type_) then
          .ok (s, card, some (card.name ++ " cannot break " ++ ice.type_ ++ " ice"))
        else if ice.strength > ability.max_strength then
          .ok (s, card, some (card.name ++ " is not strong enough to break " ++ ice.name))
        else
          match ability.subroutines with
          | none =>
            -- terminal_game.py:364 compares len(...) > None: TypeError.
            .error "TypeError: not supported between instances of int and NoneType"
          | some SubLimit.unlimited =>
            .ok (s, card, some (card.name ++ " successfully broke " ++ ice.name))
          | some (SubLimit.num m) =>
            if ice.subroutines.length > m then
              .ok (s, card, some (card.name ++ " can only break " ++ toString m ++ " subroutines"))
            else
              .ok (s, card, some (card.name ++ " successfully broke " ++ ice.name))
  else .ok (s, card, none)

/-- The resource arm of _process_card_ability (terminal_game.py:370-383). -/
def processResource (s : GameState) (ability : Ability) (card : Card)
    (trigger : Option String) (ctx : Option AbilityCtx) :
    Except PyErr (GameState × Card × Option String) :=
  if trigger = some "install" then
    .ok (s, { card with counters := ability.value },
         some ("Placed " ++ toString ability.value ++ " " ++ pyShowOpt ability.resource_type
               ++ " on " ++ card.name))
  else if trigger = some "use" then
    match ctx with
    | none => .ok (s, card, none)
    | some c =>
      if c.action = ability.usage then
        if card.counters > 0 then
          .ok (s, { card with counters := card.counters - 1 },
               some ("Used 1 " ++ pyShowOpt ability.resource_type ++ " from " ++ card.name))
        else .ok (s, card, none)
      else .ok (s, card, none)
  else .ok (s, card, none)

/-- _process_card_ability (terminal_game.py:252-385).  Returns the updated
game state, the updated card (the code mutates the card dict in place), and
the message, or a PyErr where the Python raises. -/
def processCardAbility (s : GameState) (card : Card) (trigger : Option String)
    (ctx : Option AbilityCtx) : Except PyErr (GameState × Card × Option String) :=
  match card.ability with
  | none => .ok (s, card, none)
  | some ability =>
    if ability.type_ = some "permanent" then processPermanent s ability card trigger
    else if ability.type_ = some "trigger" then processTrigger s ability card trigger
    else if ability.type_ = some "one_time" then processOneTime s ability card trigger
    else if ability.type_ = some "break_ice" then processBreakIce s ability card trigger ctx
    else if ability.type_ = some "resource" then processResource s ability card trigger ctx
    else .ok (s, card, none)

/-- Outcome classification of one command: ok (the command executed),
rejected (a validation failed and the handler returned early with an error
message), err (an uncaught Python exception escaped the handler). -/
inductive CmdOutcome
  | ok
  | rejected
  | err (e : PyErr)
deriving DecidableEq, Repr

/-- Python list.remove: drop the first element equal to the argument. -/
def removeFirst {α : Type} [DecidableEq α] : List α → α → List α
  | [], _ => []
  | x :: xs, a => if x = a then xs else x :: removeFirst xs a

/-- Python list.pop(i): the element at index i and the list without it. -/
def popAt {α : Type} : Nat → List α → Option (α × List α)
  | _, [] => none
  | 0, x :: xs => some (x, xs)
  | i+1, x :: xs => (popAt i xs).map (fun p => (p.1, x :: p.2))

/-- Python list.insert(i, a) (clamping at the end like Python does). -/
def insertAt {α : Type} : Nat → α → List α → List α
  | _, a, [] => [a]
  | 0, a, xs => a :: xs
  | i+1, a, x :: xs => x :: insertAt i a xs

/-- In-place update of the element at an index (Python mutates the aliased
dict inside the list). -/
def setAt {α : Type} : List α → Nat → α → List α
  | [], _, _ => []
  | _ :: xs, 0, a => a :: xs
  | x :: xs, i+1, a => x :: setAt xs i a

/-- _cmd_draw (terminal_game.py:598-622). -/
def cmdDraw (s : GameState) : GameState × CmdOutcome :=
  if s.current_phase ≠ GamePhase.ACTION then (s, .rejected)
  else if s.clicks_remaining < 1 then (s, .rejected)
  else
    match s.player_deck with
    | [] => (s, .rejected)
    | c :: rest =>
      ({ s with player_deck := rest,
                hand_cards := s.hand_cards ++ [c],
                runner_cards_remaining := s.runner_cards_remaining - 1,
                clicks_remaining := s.clicks_remaining - 1 }, .ok)

/-- Eligibility of an installed card as a special payment source for a
program install (terminal_game.py:671-677). -/
def isInstallPaymentSource (c : Card) : Bool :=
  match c.ability with
  | some a => a.type_ = some "resource" ∧ a.usage = some "install_programs" ∧ c.counters > 0
  | none => false

/-- terminal_game.py:679-692: walk the installed cards in order; each
eligible resource card pays 1 credit (its use-ability consumes one counter),
stopping as soon as the accumulated credits reach the cost.  The check runs
after the increment, so one counter is consumed even when cost is 0. -/
def specialPay (cost : Nat) : List Card → Nat → List Card × Nat
  | [], acc => ([], acc)
  | c :: rest, acc =>
    if isInstallPaymentSource c then
      let c' := { c with counters := c.counters - 1 }
      let acc' := acc + 1
      if acc' ≥ cost then (c' :: rest, acc')
      else
        let r := specialPay cost rest acc'
        (c' :: r.1, r.2)
    else
      let r := specialPay cost rest acc
      (c :: r.1, r.2)

/-- The special-payment outcome for an install: the updated installed list
and the credits drawn from resource counters (zero when the card is not a
program). -/
def installPay (s : GameState) (card : Card) : List Card × Nat :=
  if pyLower card.type_ = "program" then specialPay card.cost s.played_cards 0
  else (s.played_cards, 0)

/-- The state after _cmd_install has applied its cost deductions and moved
the card out of hand (terminal_game.py:694-704), before the install ability
fires. -/
def installDeducted (s : GameState) (card : Card) : GameState :=
  { s with
    played_cards := (installPay s card).1,
    player_credits := s.player_credits - ((card.cost - (installPay s card).2 : Nat) : Int),
    memory_units_used := s.memory_units_used +
      (if pyLower card.type_ = "program" then card.mu else 0),
    hand_cards := removeFirst s.hand_cards card }

/-- _cmd_install (terminal_game.py:635-723). -/
def cmdInstall (s : GameState) (args : List String) : GameState × CmdOutcome :=
  if s.current_phase ≠ GamePhase.ACTION then (s, .rejected)
  else if s.clicks_remaining < 1 then (s, .rejected)
  else
    match args with
    | [] => (s, .rejected)
    | a :: _ =>
      match pyParseInt a with
      | none => (s, .rejected)
      | some n =>
        if n < 1 ∨ n > s.hand_cards.length then (s, .rejected)
        else
          match s.hand_cards.get? (n - 1).toNat with
          | none => (s, .rejected)
          | some card =>
            if s.player_credits < card.cost then (s, .rejected)
            else if pyLower card.type_ = "program" ∧
                s.memory_units_used + card.mu > s.memory_units_available then
              (s, .rejected)
            else
              match processCardAbility (installDeducted s card) card (some "install") none with
              | .error e =>
                ({ installDeducted s card with
                    played_cards := (installDeducted s card).played_cards ++ [card] },
                 .err e)
              | .ok (s2, card', _) =>
                ({ s2 with played_cards := s2.played_cards ++ [card'],
                           clicks_remaining := s2.clicks_remaining - 1 }, .ok)

/-- _cmd_discard (terminal_game.py:1134-1167).  Note the code pops the card
first and only then checks the click cost, re-inserting the card at the same
index when the check fails. -/
def cmdDiscard (s : GameState) (args : List String) : GameState × CmdOutcome :=
  if s.hand_cards.isEmpty then (s, .rejected)
  else
    match args with
    | [] => (s, .rejected)
    | a :: _ =>
      match pyParseInt a with
      | none => (s, .rejected)
      | some n =>
        let cardIndex : Int := n - 1
        if cardIndex < 0 ∨ cardIndex ≥ (s.hand_cards.length : Int) then (s, .rejected)
        else
          match popAt cardIndex.toNat s.hand_cards with
          | none => (s, .rejected)
          | some (card, hand') =>
            if s.current_phase = GamePhase.ACTION then
              if s.clicks_remaining < 1 then
                ({ s with hand_cards := insertAt cardIndex.toNat card hand' }, .rejected)
              else
                ({ s with hand_cards := hand',
                          clicks_remaining := s.clicks_remaining - 1 }, .ok)
            else ({ s with hand_cards := hand' }, .ok)

/-- The five ICE templates of _generate_ice_for_server (terminal_game.py:967-1003). -/
def iceTemplates : List Ice :=
  [⟨"Enigma", "Code Gate", 2, ["End the run", "Runner loses 1 click"]⟩,
   ⟨"Ice Wall", "Barrier", 1, ["End the run"]⟩,
   ⟨"Neural Katana", "Sentry", 3, ["Do 3 net damage", "End the run"]⟩,
   ⟨"Data Mine", "Trap", 2, ["Do 1 net damage", "End the run"]⟩,
   ⟨"Ghost Walker", "Stealth", 1, ["Runner loses 2 credits", "End the run"]⟩]

/-- _generate_ice_for_server (terminal_game.py:942-1011).  The template index
depends on the seed and on Python's salted string hash, here the pyHash field
of the state. -/
def generateIceForServer (s : GameState) (serverName : String) : List Ice :=
  let isCentral := serverName = "R&D" ∨ serverName = "HQ" ∨ serverName = "ARCHIVES"
  let iceCount0 : Nat :=
    if s.turn_number < 3 then (if isCentral then 1 else 0)
    else if s.turn_number < 6 then (if isCentral then 2 else 1)
    else (if isCentral then 3 else 2)
  let iceCount := min 1 iceCount0
  if iceCount = 0 then []
  else
    (List.range iceCount).map (fun i =>
      iceTemplates.getD (((s.random_seed : Int) + (i : Int) + s.pyHash serverName).emod 5).toNat
        ⟨"", "", 0, []⟩)

/-- Score agenda points for the runner with the inline win check used by
_access_server (terminal_game.py:1030-1037 and the parallel branches). -/
def scoreAgendaR (s : GameState) (pts : Nat) : GameState :=
  let s1 := { s with runner_agenda_points := s.runner_agenda_points + pts }
  if s1.runner_agenda_points ≥ s1.agenda_points_to_win then
    { s1 with game_over := true, win_message := "Runner wins by scoring 7 agenda points!" }
  else s1

/-- _access_server (terminal_game.py:1020-1106): deterministic modulo
formulas on seed and turn number decide the access outcome. -/
def accessServer (s : GameState) (serverName : String) : GameState :=
  if serverName = "R&D" then
    if s.corp_cards_remaining > 0 then
      if (s.random_seed + s.turn_number) % 6 = 0 then scoreAgendaR s 1 else s
    else s
  else if serverName = "HQ" then
    if (s.random_seed + s.turn_number + 1) % 5 = 0 then scoreAgendaR s 1 else s
  else if serverName = "ARCHIVES" then
    if (s.random_seed + s.turn_number + 2) % 7 = 0 then scoreAgendaR s 1 else s
  else
    let serverNum := ((pyParseInt (pyDrop serverName 6)).map Int.toNat).getD 0
    if (s.random_seed + s.turn_number + serverNum) % 4 = 0 then scoreAgendaR s 2
    else s

/-- Run processCardAbility with a fixed trigger and no context over the
installed cards in order, threading state and writing each updated card back
(the Python loop mutates the aliased dicts in place).  On an error the
already-processed prefix keeps its updates and the walk stops. -/
def triggerAll (trigger : String) : GameState → List Card → GameState × List Card × Option PyErr
  | s, [] => (s, [], none)
  | s, c :: rest =>
    match processCardAbility s c (some trigger) none with
    | .error e => (s, c :: rest, some e)
    | .ok (s1, c1, _) =>
      let r := triggerAll trigger s1 rest
      (r.1, c1 :: r.2.1, r.2.2)

/-- The success path of _complete_run (terminal_game.py:921-929): access the
server, then fire successful_run triggers on every installed card; only when
no exception escaped is the run state cleared. -/
def completeRunSuccess (s : GameState) (run : RunState) : GameState × Option PyErr :=
  match triggerAll "successful_run" (accessServer s run.server)
      (accessServer s run.server).played_cards with
  | (s2, played', some e) => ({ s2 with played_cards := played' }, some e)
  | (s2, played', none) => ({ s2 with played_cards := played', current_run := none }, none)

/-- _complete_run (terminal_game.py:919-940). -/
def completeRun (s : GameState) (success : Bool) : GameState × Option PyErr :=
  match s.current_run with
  | none => (s, some "TypeError: NoneType object is not subscriptable")
  | some run =>
    if success then completeRunSuccess s run
    else ({ s with current_run := none }, none)

/-- The breaker collection loop of _process_next_ice
(terminal_game.py:892-899): evaluate every installed breaker against the
current ICE and keep the messages containing "successfully broke".  The
ability engine leaves state and cards untouched on these inputs but can
raise. -/
def collectBreakResults (s : GameState) : List Card → Ice → Nat → Except PyErr (List String)
  | [], _, _ => .ok []
  | c :: rest, ice, bonus =>
    match processCardAbility s c (some "encounter_ice")
        (some { ice := some ice, strength_bonus := bonus }) with
    | .error e => .error e
    | .ok (_, _, m) =>
      match collectBreakResults s rest ice bonus with
      | .error e => .error e
      | .ok ms =>
        match m with
        | some msg => if pyContains msg "successfully broke" then .ok (msg :: ms) else .ok ms
        | none => .ok ms

/-- _get_installed_breakers (terminal_game.py:1013-1018). -/
def getInstalledBreakers (s : GameState) : List Card :=
  s.played_cards.filter (fun c =>
    c.type_ == "Program" && (match c.ability with
      | some a => a.type_ == some "break_ice"
      | none => false))

/-- _process_next_ice (terminal_game.py:857-917), with fuel for the
recursion (one unit per ICE advanced past; any fuel above the remaining ICE
count is enough). -/
def processNextIce (nats : Unit) : Nat → GameState → GameState × Option PyErr
  | 0, s => (s, none)
  | fuel+1, s =>
    match s.current_run with
    | none => (s, some "TypeError: NoneType object is not subscriptable")
    | some run =>
      if run.ice_index ≥ run.ice_encountered.length then completeRun s true
      else
        match run.ice_encountered.get? run.ice_index with
        | none => (s, none)
        | some ice =>
          let run1 := { run with current_ice := some ice, state := "ice_encountered" }
          let s1 := { s with current_run := some run1 }
          if s1.bypass_next_ice > 0 then
            processNextIce nats fuel
              { s1 with bypass_next_ice := s1.bypass_next_ice - 1,
                        current_run := some { run1 with ice_index := run1.ice_index + 1 } }
          else
            let strengthBonus : Nat := if run1.approach = "aggressive" then 1 else 0
            match collectBreakResults s1 (getInstalledBreakers s1) ice strengthBonus with
            | .error e => (s1, some e)
            | .ok usable =>
              if usable.isEmpty then (s1, none)
              else
                processNextIce nats fuel
                  { s1 with current_run := some { run1 with ice_index := run1.ice_index + 1 } }

/-- Lift an inner step result to a command outcome: a PyErr becomes an
escaping exception, otherwise the command executed. -/
def wrapStepResult : GameState × Option PyErr → GameState × CmdOutcome
  | (s4, none) => (s4, CmdOutcome.ok)
  | (s4, some e) => (s4, CmdOutcome.err e)

/-- The body of _cmd_run after validation succeeds (terminal_game.py:806-855). -/
def runBody (s : GameState) (target : String) (approach : String) : GameState × CmdOutcome :=
  let s1 :=
    if approach = "stealth" then
      { s with player_credits := s.player_credits - 1,
               bypass_next_ice := s.bypass_next_ice + s.rng.nats s.natIdx % 2,
               natIdx := s.natIdx + 1 }
    else s
  let s2 := { s1 with clicks_remaining := s1.clicks_remaining - 1 }
  let ice := generateIceForServer s2 target
  let run : RunState :=
    { server := target, approach := approach,
      state := if ice.isEmpty then "initiated" else "approaching_ice",
      ice_index := 0, current_ice := none, ice_encountered := ice }
  let s3 := { s2 with current_run := some run }
  if ice.isEmpty then wrapStepResult (completeRun s3 true)
  else wrapStepResult (processNextIce () (ice.length + 1) s3)

def validCentralServers : List String := ["R&D", "HQ", "ARCHIVES"]

/-- _cmd_run (terminal_game.py:763-855). -/
def cmdRun (s : GameState) (args : List String) : GameState × CmdOutcome :=
  match args with
  | [] => (s, .rejected)
  | a0 :: restArgs =>
    if s.clicks_remaining ≤ 0 then (s, .rejected)
    else
      let approach :=
        match restArgs with
        | a1 :: _ =>
          if a1 = "--stealth" then "stealth"
          else if a1 = "--aggressive" then "aggressive"
          else if a1 = "--careful" then "careful"
          else "standard"
        | [] => "standard"
      let target0 := pyUpper a0
      if pyStartsWith target0 "REMOTE" then
        match pyParseInt (pyDrop target0 6) with
        | none => (s, .rejected)
        | some remoteNum =>
          if remoteNum < 1 ∨ remoteNum > 3 then (s, .rejected)
          else runBody s ("REMOTE" ++ toString remoteNum) approach
      else if validCentralServers.contains target0 then runBody s target0 approach
      else (s, .rejected)

/-- Count of installed cards with a jack_out_assist ability
(terminal_game.py:1226-1229). -/
def jackOutAssistCount (s : GameState) : Nat :=
  (s.played_cards.filter (fun c => match c.ability with
    | some a => a.type_ = some "jack_out_assist"
    | none => false)).length

/-- The tenths numerator of the success probability computed by
_cmd_jack_out (terminal_game.py:1213-1233): every float constant there is a
multiple of 0.1 (base 0.5; code gate -0.1, sentry -0.2, barrier +0.1; +0.2
per assist card; careful +0.3), so the arithmetic is carried out exactly
over tenths. -/
def jackOutChanceTenths (s : GameState) (run : RunState) (ice : Ice) : Int :=
  let base : Int := 5
  let iceType := pyLower ice.type_
  let base1 := if iceType = "code gate" then base - 1
               else if iceType = "sentry" then base - 2
               else if iceType = "barrier" then base + 1
               else base
  let base2 := base1 + 2 * (jackOutAssistCount s : Int)
  if run.approach = "careful" then base2 + 3 else base2

/-- The success probability of _cmd_jack_out as an exact rational. -/
def jackOutSuccessChance (s : GameState) (run : RunState) (ice : Ice) : Rat :=
  mkRat (jackOutChanceTenths s run ice) 10

/-- _cmd_jack_out (terminal_game.py:1197-1262). -/
def cmdJackOut (s : GameState) : GameState × CmdOutcome :=
  match s.current_run with
  | none => (s, .rejected)
  | some run =>
    if run.state ≠ "ice_encountered" then (s, .rejected)
    else
      match run.current_ice with
      | none => (s, .rejected)
      | some ice =>
        let chance := jackOutSuccessChance s run ice
        let roll := s.rng.floats s.floatIdx
        let s1 := { s with floatIdx := s.floatIdx + 1 }
        if roll ≤ chance then ({ s1 with current_run := none }, .ok)
        else
          let iceType := pyLower ice.type_
          if iceType = "sentry" then (s1, .ok)
          else if iceType = "code gate" then
            ({ s1 with player_credits := max 0 (s1.player_credits - 2) }, .ok)
          else (s1, .ok)

/-- ai_opponent.py card type pool (ai_opponent.py:201). -/
def aiCardTypes : List String := ["ice", "agenda", "asset", "operation", "upgrade"]

/-- AIOpponent._draw_card (ai_opponent.py:197-207): two generator draws, one
for the type and one for the 1000..9999 name suffix. -/
def aiDrawCard (ai : AIState) (nats : Nat → Nat) (k : Nat) : AIState × Nat :=
  let ctype := aiCardTypes.getD (nats k % 5) "ice"
  let num := 1000 + nats (k+1) % 9000
  ({ ai with hand := ai.hand ++ [⟨ctype, "Card-" ++ toString num⟩] }, k + 2)

/-- List.replicate applied to Python-style weight counts: negative or zero
weights contribute no copies (ai_opponent.py:116-119). -/
def aiRep (a : String) (w : Int) : List String := List.replicate w.toNat a

def isAgendaServer (sv : RemoteServer) : Bool :=
  match sv.card with
  | RemoteCard.agenda _ _ => true
  | RemoteCard.asset => false

/-- AIOpponent._decide_next_action (ai_opponent.py:67-121). -/
def decideNextAction (ai : AIState) (nats : Nat → Nat) (k : Nat) : String × Nat :=
  if ai.hand.length = 0 ∧ ai.clicks > 0 then ("draw", k)
  else
    let lowCredits := ai.credits < 3
    let wDraw : Int := 10 + (if ai.hand.length < 3 then 15 else 0)
    let wGain : Int := 10 + (if ai.strategy = AIStrategy.ECONOMIC then 20 else 0)
                          + (if lowCredits then 15 else 0)
    let wIce : Int := (if ai.strategy = AIStrategy.DEFENSIVE then 20 else 0)
                          + (if lowCredits then -5 else 0)
    let hasAgenda := ai.hand.any (fun c => c.type_ = "agenda")
    let wAgenda : Int := (if ai.strategy = AIStrategy.AGGRESSIVE then 20 else 0)
                          + (if lowCredits then -5 else 0)
                          + (if hasAgenda then 10 else 0)
    let wAsset : Int := if ai.strategy = AIStrategy.ECONOMIC then 15 else 0
    let hasAdvanceable := ai.remote_servers.length > 0 ∧ ai.remote_servers.any isAgendaServer
    let wAdvance : Int := (if ai.strategy = AIStrategy.AGGRESSIVE then 25 else 0)
                          + (if hasAdvanceable then 15 else 0)
    let actions := aiRep "draw" wDraw ++ aiRep "gain_credit" wGain ++ aiRep "install_ice" wIce
                 ++ aiRep "install_agenda" wAgenda ++ aiRep "install_asset" wAsset
                 ++ aiRep "advance" wAdvance
    if actions.isEmpty then ("gain_credit", k)
    else (actions.getD (nats k % actions.length) "gain_credit", k + 1)

/-- The fall-through at the end of _perform_action (ai_opponent.py:190-195). -/
def aiDefaultAction (ai : AIState) (k : Nat) : AIState × Nat :=
  if ai.clicks > 0 then ({ ai with clicks := ai.clicks - 1 }, k) else (ai, k)

/-- The indices of remote servers holding agendas (the advanceable_servers
filter of ai_opponent.py:170-173, by position so the in-place dict mutation
lands on the right list entry). -/
def aiAdvanceIdxs (ai : AIState) : List Nat :=
  (List.range ai.remote_servers.length).filter
    (fun i => match ai.remote_servers.get? i with
      | some sv => isAgendaServer sv
      | none => false)

/-- The position of the server random.choice picks among the advanceable
ones. -/
def aiChosenIdx (ai : AIState) (nats : Nat → Nat) (k : Nat) : Nat :=
  (aiAdvanceIdxs ai).getD (nats k % (aiAdvanceIdxs ai).length) 0

/-- The advance branch of _perform_action (ai_opponent.py:167-188).  The
chosen advanceable server is updated in place; when it reaches its
requirement, the points are scored and list.remove drops the first server
equal to the advanced one. -/
def aiAdvance (ai : AIState) (nats : Nat → Nat) (k : Nat) : AIState × Nat :=
  if (aiAdvanceIdxs ai).isEmpty then aiDefaultAction ai k
  else
    match ai.remote_servers.get? (aiChosenIdx ai nats k) with
    | none => aiDefaultAction ai k
    | some sv =>
      match sv.card with
      | RemoteCard.asset => aiDefaultAction ai k
      | RemoteCard.agenda adv req =>
        if adv + 1 ≥ req then
          ({ ai with
              clicks := ai.clicks - 1,
              credits := ai.credits - 1,
              scored_agendas := ai.scored_agendas ++ [[1, 2, 3].getD (nats (k+1) % 3) 1],
              remote_servers :=
                removeFirst
                  (setAt ai.remote_servers (aiChosenIdx ai nats k) ⟨RemoteCard.agenda (adv + 1) req⟩)
                  ⟨RemoteCard.agenda (adv + 1) req⟩ }, k + 2)
        else
          ({ ai with
              clicks := ai.clicks - 1,
              credits := ai.credits - 1,
              remote_servers :=
                setAt ai.remote_servers (aiChosenIdx ai nats k)
                  ⟨RemoteCard.agenda (adv + 1) req⟩ }, k + 1)

/-- AIOpponent._perform_action (ai_opponent.py:123-195).  Every branch whose
guard fails falls through to the default basic action. -/
def performAction (ai : AIState) (action : String) (nats : Nat → Nat) (k : Nat) :
    AIState × Nat :=
  if action = "draw" then
    if ai.clicks > 0 then aiDrawCard { ai with clicks := ai.clicks - 1 } nats k
    else aiDefaultAction ai k
  else if action = "gain_credit" then
    if ai.clicks > 0 then ({ ai with clicks := ai.clicks - 1, credits := ai.credits + 1 }, k)
    else aiDefaultAction ai k
  else if action = "install_ice" then
    if ai.clicks > 0 ∧ ai.credits ≥ 1 then
      ({ ai with clicks := ai.clicks - 1, credits := ai.credits - 1 }, k + 1)
    else aiDefaultAction ai k
  else if action = "install_agenda" then
    if ai.clicks > 0 then
      ({ ai with clicks := ai.clicks - 1,
                 remote_servers := ai.remote_servers ++ [⟨RemoteCard.agenda 0 (2 + nats k % 4)⟩] },
       k + 1)
    else aiDefaultAction ai k
  else if action = "install_asset" then
    if ai.clicks > 0 then
      ({ ai with clicks := ai.clicks - 1,
                 remote_servers := ai.remote_servers ++ [⟨RemoteCard.asset⟩] }, k)
    else aiDefaultAction ai k
  else if action = "advance" then
    if ai.clicks > 0 ∧ ai.credits ≥ 1 ∧ ¬ ai.remote_servers.isEmpty then aiAdvance ai nats k
    else aiDefaultAction ai k
  else aiDefaultAction ai k

/-- AIOpponent._process_discard (ai_opponent.py:209-219): pop from the end
of the hand down to the cap of 5, appending the popped cards to the discard
pile in pop order. -/
def aiProcessDiscard (ai : AIState) : AIState :=
  if ai.hand.length > 5 then
    { ai with hand := ai.hand.take 5,
              discard := ai.discard ++ (ai.hand.drop 5).reverse }
  else ai

/-- The main action loop of AIOpponent.take_turn (ai_opponent.py:52-57),
with fuel; any fuel at least the starting click count is enough because
every iteration with clicks > 0 spends exactly one click. -/
def takeTurnLoop (nats : Nat → Nat) : Nat → AIState → Nat → AIState × Nat
  | 0, ai, k => (ai, k)
  | fuel+1, ai, k =>
    if ai.clicks > 0 then
      takeTurnLoop nats fuel
        (performAction ai (decideNextAction ai nats k).1 nats (decideNextAction ai nats k).2).1
        (performAction ai (decideNextAction ai nats k).1 nats (decideNextAction ai nats k).2).2
    else (ai, k)

/-- AIOpponent.take_turn (ai_opponent.py:48-65): action loop then the
end-of-turn discard. -/
def takeTurn (ai : AIState) (nats : Nat → Nat) (k : Nat) : AIState × Nat :=
  (aiProcessDiscard (takeTurnLoop nats ai.clicks.toNat ai k).1,
   (takeTurnLoop nats ai.clicks.toNat ai k).2)

/-- AIOpponent.start_turn (ai_opponent.py:41-46): reset clicks to 3 and
draw a card. -/
def aiStartTurn (ai : AIState) (nats : Nat → Nat) (k : Nat) : AIState × Nat :=
  aiDrawCard { ai with clicks := 3 } nats k

/-- _process_ai_turn (terminal_game.py:498-531): run the AI turn, copy its
agenda points, check the corp win (which also sets the GAME_OVER phase via
_display_game_over), otherwise hand the turn back to the runner. -/
def processAiTurn (s : GameState) : GameState :=
  let r0 := aiStartTurn s.ai s.rng.nats s.natIdx
  let r1 := takeTurn r0.1 s.rng.nats r0.2
  let s1 := { s with ai := r1.1, natIdx := r1.2,
                     corp_agenda_points := r1.1.scored_agendas.sum }
  if s1.corp_agenda_points ≥ s1.agenda_points_to_win then
    { s1 with game_over := true,
              win_message := "Corporation wins by advancing agendas!",
              current_phase := GamePhase.GAME_OVER }
  else { s1 with active_player := some "runner" }

/-- The per-turn flag reset applied to each installed card at turn start
(terminal_game.py:472-474). -/
def resetPerTurnFlag (c : Card) : Card :=
  if (match c.ability with
      | some a => a.type_ == some "trigger" && a.frequency == "per_turn"
      | none => false)
  then { c with used_this_turn := false } else c

/-- The per-card reset plus turn_start trigger pass of start_turn
(terminal_game.py:470-479), walking installed cards in order with in-place
updates; an error stops the walk keeping the partial updates. -/
def turnStartPass : GameState → List Card → GameState × List Card × Option PyErr
  | s, [] => (s, [], none)
  | s, c :: rest =>
    match processCardAbility s (resetPerTurnFlag c) (some "turn_start") none with
    | .error e => (s, resetPerTurnFlag c :: rest, some e)
    | .ok (s1, c1, _) =>
      ((turnStartPass s1 rest).1, c1 :: (turnStartPass s1 rest).2.1,
       (turnStartPass s1 rest).2.2)

/-- The runner branch of start_turn (terminal_game.py:459-489). -/
def startTurnRunner (s : GameState) : GameState × Option PyErr :=
  let s1 := { s with turn_number := s.turn_number + 1,
                     current_phase := GamePhase.START_TURN,
                     clicks_remaining := s.max_clicks }
  let r := turnStartPass s1 s1.played_cards
  let s2 := { r.1 with played_cards := r.2.1 }
  match r.2.2 with
  | some e => (s2, some e)
  | none => ({ s2 with current_phase := GamePhase.ACTION }, none)

/-- start_turn (terminal_game.py:457-496): for the corp side, run the AI
turn and then immediately start the runner's turn (the code does this even
when the corp just won). -/
def startTurn (s : GameState) : GameState × Option PyErr :=
  if s.active_player = some "runner" then startTurnRunner s
  else
    let s1 := { s with turn_number := s.turn_number + 1,
                       current_phase := GamePhase.START_TURN }
    let s2 := processAiTurn s1
    startTurnRunner { s2 with active_player := some "runner" }

/-- _cmd_end (terminal_game.py:1169-1195). -/
def cmdEnd (s : GameState) : GameState × CmdOutcome :=
  if s.current_phase ≠ GamePhase.ACTION ∧ s.current_phase ≠ GamePhase.DISCARD then (s, .rejected)
  else if s.hand_cards.length > 5 then
    ({ s with current_phase := GamePhase.DISCARD }, .rejected)
  else
    wrapStepResult
      (startTurn { s with current_phase := GamePhase.END_TURN, active_player := some "corp" })

/-- _cmd_system (terminal_game.py:1108-1121): output only, but it consumes
two generator draws for the flavor strings. -/
def cmdSystem (s : GameState) : GameState × CmdOutcome :=
  ({ s with natIdx := s.natIdx + 2 }, .ok)

def validCommands : List String :=
  ["help", "draw", "hand", "install", "run", "jack_out", "end", "info",
   "discard", "system", "installed", "credits", "memory", "man"]

/-- _cmd_help (terminal_game.py:560-578): output only; an unknown argument
produces an error message. -/
def cmdHelp (s : GameState) (args : List String) : GameState × CmdOutcome :=
  match args with
  | [] => (s, .ok)
  | a :: _ => if validCommands.contains (pyLower a) then (s, .ok) else (s, .rejected)

/-- _cmd_man (terminal_game.py:580-596): output only; every valid command
has a man page. -/
def cmdMan (s : GameState) (args : List String) : GameState × CmdOutcome :=
  match args with
  | [] => (s, .rejected)
  | a :: _ => if validCommands.contains (pyLower a) then (s, .ok) else (s, .rejected)

/-- _check_win_conditions (terminal_game.py:423-449). -/
def checkWinConditions (s : GameState) : GameState :=
  if s.runner_agenda_points ≥ s.agenda_points_to_win then
    { s with game_over := true,
             win_message := "Runner wins by collecting " ++ toString s.agenda_points_to_win
               ++ " agenda points!" }
  else if s.corp_agenda_points ≥ s.agenda_points_to_win then
    { s with game_over := true,
             win_message := "Corporation wins by scoring " ++ toString s.agenda_points_to_win
               ++ " agenda points!" }
  else if s.runner_cards_remaining ≤ 0 ∧ s.player_deck.length = 0 then
    { s with game_over := true, win_message := "Corporation wins! Runner\x27s deck is empty." }
  else if s.corp_cards_remaining ≤ 0 then
    { s with game_over := true, win_message := "Runner wins! Corporation\x27s R&D is empty." }
  else s

/-- _display_game_over (terminal_game.py:451-455): sets the terminal phase. -/
def displayGameOver (s : GameState) : GameState :=
  { s with current_phase := GamePhase.GAME_OVER }

/-- The getattr dispatch of process_command (terminal_game.py:406-414);
commands whose handlers only render output are identity on the state. -/
def dispatchCommand (s : GameState) (cmd : String) (args : List String) :
    GameState × CmdOutcome :=
  if cmd = "help" then cmdHelp s args
  else if cmd = "draw" then cmdDraw s
  else if cmd = "hand" then (s, .ok)
  else if cmd = "install" then cmdInstall s args
  else if cmd = "run" then cmdRun s args
  else if cmd = "jack_out" then cmdJackOut s
  else if cmd = "end" then cmdEnd s
  else if cmd = "info" then (s, .ok)
  else if cmd = "discard" then cmdDiscard s args
  else if cmd = "system" then cmdSystem s
  else if cmd = "installed" then (s, .ok)
  else if cmd = "credits" then (s, .ok)
  else if cmd = "memory" then (s, .ok)
  else if cmd = "man" then cmdMan s args
  else (s, .rejected)

/-- The history append at the top of process_command (terminal_game.py:390). -/
def withHistory (s : GameState) (cmd : String) (args : List String) : GameState :=
  { s with command_history := s.command_history ++ [String.intercalate " " (cmd :: args)] }

/-- process_command (terminal_game.py:387-421): record history, refuse once
the game is over, dispatch, then re-check win conditions (skipped when an
exception escapes the handler, as in Python). -/
def processCommand (s : GameState) (cmd : String) (args : List String) :
    GameState × CmdOutcome :=
  if (withHistory s cmd args).game_over then (withHistory s cmd args, .rejected)
  else
    match dispatchCommand (withHistory s cmd args) (pyLower cmd) args with
    | (s1, CmdOutcome.err e) => (s1, CmdOutcome.err e)
    | (s1, CmdOutcome.ok) =>
      if (checkWinConditions s1).game_over then
        (displayGameOver (checkWinConditions s1), CmdOutcome.ok)
      else (checkWinConditions s1, CmdOutcome.ok)
    | (s1, CmdOutcome.rejected) =>
      if (checkWinConditions s1).game_over then
        (displayGameOver (checkWinConditions s1), CmdOutcome.rejected)
      else (checkWinConditions s1, CmdOutcome.rejected)

/-- random.choice(list(AIStrategy)) in AIOpponent.__init__ (ai_opponent.py:24). -/
def strategyOfNat : Nat → AIStrategy
  | 0 => AIStrategy.BALANCED
  | 1 => AIStrategy.AGGRESSIVE
  | 2 => AIStrategy.DEFENSIVE
  | _ => AIStrategy.ECONOMIC

/-- _initialize_deck (terminal_game.py:231-237). -/
def initDeck (s : GameState) (cards : List Card) : GameState :=
  let deck := s.rng.shuffle cards
  { s with player_deck := deck, runner_cards_remaining := (deck.length : Int) }

/-- _draw_starting_hand (terminal_game.py:239-245). -/
def drawStartingHand : Nat → GameState → GameState
  | 0, s => s
  | n+1, s =>
    match s.player_deck with
    | [] => s
    | c :: rest =>
      drawStartingHand n { s with player_deck := rest,
                                  hand_cards := s.hand_cards ++ [c],
                                  runner_cards_remaining := s.runner_cards_remaining - 1 }

/-- The fresh game object, after random.seed and AIOpponent creation (one
strategy draw consumed). -/
def initBase (seed : Nat) (pyHash : String → Int) (rng : Rng) : GameState :=
  { rng := rng, pyHash := pyHash, random_seed := seed,
    ai := { strategy := strategyOfNat (rng.nats 0 % 4) }, natIdx := 1 }

/-- The state right before initialize calls start_turn: deck built and
shuffled, starting hand drawn, phase SETUP, runner active, and the help
command processed (terminal_game.py:216-226). -/
def preStartState (cards : List Card) (seed : Nat) (pyHash : String → Int)
    (rng : Rng) : GameState :=
  (processCommand
    { drawStartingHand 5 (initDeck (initBase seed pyHash rng) cards) with
      current_phase := GamePhase.SETUP, active_player := some "runner" } "help" []).1

/-- initialize (terminal_game.py:208-229): seed the generator, create the
AI (one strategy draw), build and shuffle the deck, draw the starting hand,
run the help command, and start turn 1. -/
def initGame (cards : List Card) (seed : Nat) (pyHash : String → Int) (rng : Rng) :
    Except PyErr GameState :=
  match startTurn (preStartState cards seed pyHash rng) with
  | (s4, none) => .ok s4
  | (_, some e) => .error e

/-!  Concrete fixtures used by witnesses and counterexamples. -/

/-- A trivial random environment: the zero streams and the identity
shuffle.  The decks used with it consist of identical cards, for which
every permutation of the deck (hence the real shuffle) gives this result. -/
def zeroRng : Rng := { nats := fun _ => 0, floats := fun _ => 0, shuffle := id }

/-- An ability-free event card. -/
def junkCard : Card := { name := "Junk", type_ := "Event" }

def junkDeck : List Card := List.replicate 6 junkCard

/-- The state after initialize with a 6-card ability-free deck, seed 0, and
hash 0 (initGame always returns ok; the fallback default is never taken). -/
def initJunk : GameState :=
  match initGame junkDeck 0 (fun _ => 0) zeroRng with
  | .ok s => s
  | .error _ => {}

/-- After initJunk, one run on R&D: it stalls on the single generated ICE. -/
def runFirst : GameState × CmdOutcome := processCommand initJunk "run" ["R&D"]

/-- A second run, issued while the first run is still stalled in its ICE
encounter. -/
def runSecond : GameState × CmdOutcome := processCommand runFirst.1 "run" ["HQ"]

/-- A breaker that handles Barrier ICE of strength at most 1 at no cost. -/
def barrierBreaker : Card :=
  { name := "Corroder", type_ := "Program", cost := 0, mu := 0, strength := 1,
    ability := some { type_ := some "break_ice", ice_types := ["Barrier"], max_strength := 1,
                      subroutines := some SubLimit.unlimited } }

def breakerDeck : List Card := List.replicate 6 barrierBreaker

/-- One full execution of the engine on seed 5 with the fixed command
sequence [install 1, run R&D], in an environment whose string hash is the
constant h.  Python seeds the random module but not the per-process string
hash salt, so independent executions correspond to different h. -/
def c3exec (h : Int) : GameState :=
  match initGame breakerDeck 5 (fun _ => h) zeroRng with
  | .ok s0 =>
    let s1 := (processCommand s0 "install" ["1"]).1
    (processCommand s1 "run" ["R&D"]).1
  | .error _ => {}

/-- The shipped catalog card Data Siphon (card_data.py:416-437): a trigger
ability with effect draw on successful_run. -/
def dataSiphon : Card :=
  { name := "Data Siphon", type_ := "Program", cost := 2, mu := 1,
    ability := some { type_ := some "trigger", trigger_ := some "successful_run",
                      effect := some "draw", value := 1 } }

/-- A well-formed breaker descriptor without a subroutines key. -/
def noSubsBreaker : Card :=
  { name := "Icepick", type_ := "Program",
    ability := some { type_ := some "break_ice", ice_types := ["all"], max_strength := 5 } }

def barrierIce : Ice := { name := "Wall", type_ := "Barrier", strength := 1, subroutines := [] }

/-- The Enigma template (a Code Gate), as generated for index 0. -/
def enigmaIce : Ice := iceTemplates.getD 0 ⟨"", "", 0, []⟩

/-- A run stalled in the encounter with Enigma. -/
def jackOutRun : RunState :=
  { server := "R&D", approach := "standard", state := "ice_encountered",
    ice_index := 0, current_ice := some enigmaIce, ice_encountered := [enigmaIce] }

/-- A state in the middle of a run, facing Enigma, where the next random()
draw is 1/2 (above the 2/5 jack-out success chance for a code gate). -/
def jackOutState : GameState :=
  { current_run := some jackOutRun,
    rng := { nats := fun _ => 0, floats := fun _ => mkRat 1 2, shuffle := id } }

/-!  Properties the claims quantify over. -/

/-- The player-visible game state listed by the no-partial-mutation claim:
clicks, credits, memory, hand, deck, installed cards, run state and both
agenda-point totals agree between two states. -/
def SamePlayerState (s t : GameState) : Prop :=
  t.clicks_remaining = s.clicks_remaining ∧
  t.player_credits = s.player_credits ∧
  t.memory_units_used = s.memory_units_used ∧
  t.memory_units_available = s.memory_units_available ∧
  t.hand_cards = s.hand_cards ∧
  t.player_deck = s.player_deck ∧
  t.played_cards = s.played_cards ∧
  t.current_run = s.current_run ∧
  t.runner_agenda_points = s.runner_agenda_points ∧
  t.corp_agenda_points = s.corp_agenda_points

instance (s t : GameState) : Decidable (SamePlayerState s t) := by
  unfold SamePlayerState; infer_instance

/-- The counter/deck agreement of the deck-size claim. -/
def DeckCount (s : GameState) : Prop :=
  s.runner_cards_remaining = (s.player_deck.length : Int)

instance (s : GameState) : Decidable (DeckCount s) := by
  unfold DeckCount; infer_instance

/-- The resource sanity of the install claim: memory within capacity and a
non-negative credit balance. -/
def ResourcesOk (s : GameState) : Prop :=
  s.memory_units_used ≤ s.memory_units_available ∧ 0 ≤ s.player_credits

instance (s : GameState) : Decidable (ResourcesOk s) := by
  unfold ResourcesOk; infer_instance

/-- Agreement on the deck and its counter between two states (used to chase
the deck-count invariant through operations that never touch the deck). -/
def DeckFields (s t : GameState) : Prop :=
  t.player_deck = s.player_deck ∧ t.runner_cards_remaining = s.runner_cards_remaining

/-- What the ability engine may do to the game state: it never touches the
deck, its counter, the memory in use, the hand, the clicks, the run state or
the installed list, and it only ever increases memory capacity and credits. -/
def AbilityEffectBound (s s' : GameState) : Prop :=
  s'.player_deck = s.player_deck ∧
  s'.runner_cards_remaining = s.runner_cards_remaining ∧
  s'.memory_units_used = s.memory_units_used ∧
  s.memory_units_available ≤ s'.memory_units_available ∧
  s.player_credits ≤ s'.player_credits ∧
  s'.hand_cards = s.hand_cards ∧
  s'.clicks_remaining = s.clicks_remaining ∧
  s'.current_run = s.current_run ∧
  s'.played_cards = s.played_cards

/-!  Helper lemmas. -/

theorem samePS_refl (s : GameState) : SamePlayerState s s := by
  unfold SamePlayerState; exact ⟨rfl, rfl, rfl, rfl, rfl, rfl, rfl, rfl, rfl, rfl⟩

theorem samePS_trans {s t u : GameState} (h1 : SamePlayerState s t)
    (h2 : SamePlayerState t u) : SamePlayerState s u := by
  unfold SamePlayerState at *
  obtain ⟨a1, a2, a3, a4, a5, a6, a7, a8, a9, a10⟩ := h1
  obtain ⟨b1, b2, b3, b4, b5, b6, b7, b8, b9, b10⟩ := h2
  exact ⟨b1.trans a1, b2.trans a2, b3.trans a3, b4.trans a4, b5.trans a5,
         b6.trans a6, b7.trans a7, b8.trans a8, b9.trans a9, b10.trans a10⟩

theorem samePS_withHistory (s : GameState) (cmd : String) (args : List String) :
    SamePlayerState s (withHistory s cmd args) := by
  unfold SamePlayerState withHistory
  exact ⟨rfl, rfl, rfl, rfl, rfl, rfl, rfl, rfl, rfl, rfl⟩

theorem samePS_checkWin (s : GameState) : SamePlayerState s (checkWinConditions s) := by
  unfold checkWinConditions SamePlayerState
  repeat' split
  all_goals exact ⟨rfl, rfl, rfl, rfl, rfl, rfl, rfl, rfl, rfl, rfl⟩

theorem samePS_displayGameOver (s : GameState) : SamePlayerState s (displayGameOver s) := by
  unfold SamePlayerState displayGameOver
  exact ⟨rfl, rfl, rfl, rfl, rfl, rfl, rfl, rfl, rfl, rfl⟩

/-- The shape of processCommand when the game is not over and the dispatched
handler returns outcome o with o not an exception. -/
theorem processCommand_eq_of_dispatch (s : GameState) (cmd : String) (args : List String)
    (s1 : GameState) (o : CmdOutcome)
    (hgo : s.game_over = false)
    (ho : ∀ e, o ≠ CmdOutcome.err e)
    (hdisp : dispatchCommand (withHistory s cmd args) (pyLower cmd) args = (s1, o)) :
    processCommand s cmd args =
      (if (checkWinConditions s1).game_over = true then displayGameOver (checkWinConditions s1)
       else checkWinConditions s1, o) := by
  have h0 : (withHistory s cmd args).game_over = false := hgo
  cases o with
  | err e => exact absurd rfl (ho e)
  | ok =>
    unfold processCommand
    rw [h0]
    simp only [Bool.false_eq_true, if_false]
    rw [hdisp]
    split
    next heq => simp at heq
    next s2 heq =>
      injection heq with h1 h2
      subst h1
      split <;> rfl
    next s2 heq => simp at heq
  | rejected =>
    unfold processCommand
    rw [h0]
    simp only [Bool.false_eq_true, if_false]
    rw [hdisp]
    split
    next heq => simp at heq
    next s2 heq => simp at heq
    next s2 heq =>
      injection heq with h1 h2
      subst h1
      split <;> rfl

/-- processCommand seen through the claim-relevant fields: when the game is
not over and the handler returns a non-exception outcome, the final state
agrees with the handler result on all player-visible fields. -/
theorem processCommand_fields (s : GameState) (cmd : String) (args : List String)
    (s1 : GameState) (o : CmdOutcome)
    (hgo : s.game_over = false) (ho : ∀ e, o ≠ CmdOutcome.err e)
    (hdisp : dispatchCommand (withHistory s cmd args) (pyLower cmd) args = (s1, o)) :
    SamePlayerState s1 (processCommand s cmd args).1 ∧ (processCommand s cmd args).2 = o := by
  rw [processCommand_eq_of_dispatch s cmd args s1 o hgo ho hdisp]
  refine ⟨?_, rfl⟩
  split
  · exact samePS_trans (samePS_checkWin s1) (samePS_displayGameOver _)
  · exact samePS_checkWin s1

/-- The successful branch of cmdDraw. -/
theorem cmdDraw_ok (s : GameState) (c : Card) (rest : List Card)
    (hph : s.current_phase = GamePhase.ACTION) (hck : 1 ≤ s.clicks_remaining)
    (hdeck : s.player_deck = c :: rest) :
    cmdDraw s = ({ s with
        player_deck := rest,
        hand_cards := s.hand_cards ++ [c],
        runner_cards_remaining := s.runner_cards_remaining - 1,
        clicks_remaining := s.clicks_remaining - 1 }, CmdOutcome.ok) := by
  unfold cmdDraw
  rw [hph, hdeck]
  simp [Nat.not_lt.mpr hck]

theorem aeb_refl (s : GameState) : AbilityEffectBound s s := by
  unfold AbilityEffectBound
  exact ⟨rfl, rfl, rfl, le_refl _, le_refl _, rfl, rfl, rfl, rfl⟩

theorem aeb_trans {s t u : GameState} (h1 : AbilityEffectBound s t)
    (h2 : AbilityEffectBound t u) : AbilityEffectBound s u := by
  unfold AbilityEffectBound at *
  obtain ⟨a1, a2, a3, a4, a5, a6, a7, a8, a9⟩ := h1
  obtain ⟨b1, b2, b3, b4, b5, b6, b7, b8, b9⟩ := h2
  exact ⟨b1.trans a1, b2.trans a2, b3.trans a3, a4.trans b4, a5.trans b5,
         b6.trans a6, b7.trans a7, b8.trans a8, b9.trans a9⟩

theorem permEffectFold_bound : ∀ (effects : List AbilityEffect) (acc : GameState × List String),
    AbilityEffectBound acc.1 (effects.foldl permEffectStep acc).1
  | [], acc => aeb_refl _
  | e :: rest, acc => by
    rw [List.foldl_cons]
    refine aeb_trans ?_ (permEffectFold_bound rest (permEffectStep acc e))
    unfold permEffectStep AbilityEffectBound
    repeat' split
    all_goals first
      | exact ⟨rfl, rfl, rfl, Nat.le_add_right _ _, le_refl _, rfl, rfl, rfl, rfl⟩
      | exact ⟨rfl, rfl, rfl, le_refl _, le_refl _, rfl, rfl, rfl, rfl⟩

theorem processPermanent_bound (s : GameState) (a : Ability) (c : Card) (t : Option String)
    (s' : GameState) (c' : Card) (m : Option String)
    (h : processPermanent s a c t = .ok (s', c', m)) : AbilityEffectBound s s' := by
  unfold AbilityEffectBound
  unfold processPermanent at h
  repeat' split at h
  all_goals first
    | exact Except.noConfusion h
    | (simp only [Except.ok.injEq, Prod.mk.injEq] at h
       obtain ⟨hs, -, -⟩ := h
       subst hs
       first
         | exact ⟨rfl, rfl, rfl, le_refl _, le_refl _, rfl, rfl, rfl, rfl⟩
         | exact ⟨rfl, rfl, rfl, Nat.le_add_right _ _, le_refl _, rfl, rfl, rfl, rfl⟩
         | exact permEffectFold_bound _ _)

theorem processTrigger_bound (s : GameState) (a : Ability) (c : Card) (t : Option String)
    (s' : GameState) (c' : Card) (m : Option String)
    (h : processTrigger s a c t = .ok (s', c', m)) : AbilityEffectBound s s' := by
  unfold AbilityEffectBound
  unfold processTrigger at h
  repeat' split at h
  all_goals first
    | exact Except.noConfusion h
    | (simp only [Except.ok.injEq, Prod.mk.injEq] at h
       obtain ⟨hs, -, -⟩ := h
       subst hs
       first
         | exact ⟨rfl, rfl, rfl, le_refl _, le_refl _, rfl, rfl, rfl, rfl⟩
         | exact ⟨rfl, rfl, rfl, le_refl _,
             le_add_of_nonneg_right (Int.natCast_nonneg _), rfl, rfl, rfl, rfl⟩)

theorem processOneTime_bound (s : GameState) (a : Ability) (c : Card) (t : Option String)
    (s' : GameState) (c' : Card) (m : Option String)
    (h : processOneTime s a c t = .ok (s', c', m)) : AbilityEffectBound s s' := by
  unfold AbilityEffectBound
  unfold processOneTime at h
  repeat' split at h
  all_goals first
    | exact Except.noConfusion h
    | (simp only [Except.ok.injEq, Prod.mk.injEq] at h
       obtain ⟨hs, -, -⟩ := h
       subst hs
       exact ⟨rfl, rfl, rfl, le_refl _, le_refl _, rfl, rfl, rfl, rfl⟩)

theorem processBreakIce_bound (s : GameState) (a : Ability) (c : Card) (t : Option String)
    (ctx : Option AbilityCtx) (s' : GameState) (c' : Card) (m : Option String)
    (h : processBreakIce s a c t ctx = .ok (s', c', m)) : AbilityEffectBound s s' := by
  unfold AbilityEffectBound
  unfold processBreakIce at h
  repeat' split at h
  all_goals first
    | exact Except.noConfusion h
    | (simp only [Except.ok.injEq, Prod.mk.injEq] at h
       obtain ⟨hs, -, -⟩ := h
       subst hs
       exact ⟨rfl, rfl, rfl, le_refl _, le_refl _, rfl, rfl, rfl, rfl⟩)

theorem processResource_bound (s : GameState) (a : Ability) (c : Card) (t : Option String)
    (ctx : Option AbilityCtx) (s' : GameState) (c' : Card) (m : Option String)
    (h : processResource s a c t ctx = .ok (s', c', m)) : AbilityEffectBound s s' := by
  unfold AbilityEffectBound
  unfold processResource at h
  repeat' split at h
  all_goals first
    | exact Except.noConfusion h
    | (simp only [Except.ok.injEq, Prod.mk.injEq] at h
       obtain ⟨hs, -, -⟩ := h
       subst hs
       exact ⟨rfl, rfl, rfl, le_refl _, le_refl _, rfl, rfl, rfl, rfl⟩)

/-- The ability engine obeys the state bound on every normal return. -/
theorem processCardAbility_bound (s : GameState) (c : Card) (t : Option String)
    (ctx : Option AbilityCtx) (s' : GameState) (c' : Card) (m : Option String)
    (h : processCardAbility s c t ctx = .ok (s', c', m)) : AbilityEffectBound s s' := by
  unfold processCardAbility at h
  repeat' split at h
  all_goals first
    | exact Except.noConfusion h
    | exact processPermanent_bound _ _ _ _ _ _ _ h
    | exact processTrigger_bound _ _ _ _ _ _ _ h
    | exact processOneTime_bound _ _ _ _ _ _ _ h
    | exact processBreakIce_bound _ _ _ _ _ _ _ _ h
    | exact processResource_bound _ _ _ _ _ _ _ _ h
    | (simp only [Except.ok.injEq, Prod.mk.injEq] at h
       obtain ⟨hs, -, -⟩ := h
       subst hs
       exact aeb_refl _)

theorem deckFields_refl (s : GameState) : DeckFields s s := ⟨rfl, rfl⟩

theorem deckFields_trans {s t u : GameState} (h1 : DeckFields s t) (h2 : DeckFields t u) :
    DeckFields s u := ⟨h2.1.trans h1.1, h2.2.trans h1.2⟩

theorem deckCount_of_deckFields {s t : GameState} (h : DeckCount s) (hf : DeckFields s t) :
    DeckCount t := by
  unfold DeckCount at *
  rw [hf.2, hf.1]
  exact h

theorem wrapStepResult_fst (p : GameState × Option PyErr) : (wrapStepResult p).1 = p.1 := by
  obtain ⟨s4, e?⟩ := p
  cases e? <;> rfl

theorem wrapStepResult_snd (p : GameState × Option PyErr) :
    (wrapStepResult p).2 ≠ CmdOutcome.rejected := by
  obtain ⟨s4, e?⟩ := p
  cases e? <;> simp [wrapStepResult]

theorem triggerAll_deck (t : String) : ∀ (cs : List Card) (s : GameState),
    DeckFields s (triggerAll t s cs).1
  | [], s => deckFields_refl s
  | c :: rest, s => by
    unfold triggerAll
    cases hpc : processCardAbility s c (some t) none with
    | error e => exact deckFields_refl s
    | ok r =>
      obtain ⟨s1, c1, m1⟩ := r
      obtain ⟨d1, r1, -, -, -, -, -, -, -⟩ :=
        processCardAbility_bound s c (some t) none s1 c1 m1 hpc
      exact deckFields_trans ⟨d1, r1⟩ (triggerAll_deck t rest s1)

theorem scoreAgendaR_deck (s : GameState) (p : Nat) : DeckFields s (scoreAgendaR s p) := by
  simp only [scoreAgendaR]
  split <;> exact ⟨rfl, rfl⟩

theorem accessServer_deck (s : GameState) (name : String) :
    DeckFields s (accessServer s name) := by
  simp only [accessServer]
  repeat' split
  all_goals first
    | exact deckFields_refl s
    | exact scoreAgendaR_deck _ _

theorem completeRun_deck (s : GameState) (b : Bool) : DeckFields s (completeRun s b).1 := by
  unfold completeRun completeRunSuccess
  split
  · exact deckFields_refl s
  next run hr =>
    split
    · have ha := accessServer_deck s run.server
      have ht := triggerAll_deck "successful_run" (accessServer s run.server).played_cards
        (accessServer s run.server)
      split
      next s2 p e heq =>
        rw [heq] at ht
        exact deckFields_trans ha ht
      next s2 p heq =>
        rw [heq] at ht
        exact deckFields_trans ha ht
    · exact deckFields_refl s

theorem processNextIce_deck : ∀ (fuel : Nat) (s : GameState),
    DeckFields s (processNextIce () fuel s).1
  | 0, s => deckFields_refl s
  | fuel+1, s => by
    simp only [processNextIce]
    split
    · exact deckFields_refl s
    next run hr =>
      split
      · exact completeRun_deck s true
      · split
        · exact deckFields_refl s
        next ice hice =>
          split
          · exact processNextIce_deck fuel _
          · split
            · exact deckFields_refl s
            · split
              · exact deckFields_refl s
              · exact processNextIce_deck fuel _

theorem runBody_deck (s : GameState) (t a : String) : DeckFields s (runBody s t a).1 := by
  simp only [runBody]
  repeat' split
  all_goals rw [wrapStepResult_fst]
  all_goals first
    | exact completeRun_deck _ true
    | exact processNextIce_deck _ _

theorem cmdRun_deck (s : GameState) (args : List String) : DeckFields s (cmdRun s args).1 := by
  simp only [cmdRun]
  repeat' split
  all_goals first
    | exact deckFields_refl s
    | exact runBody_deck _ _ _

theorem cmdInstall_deck (s : GameState) (args : List String) :
    DeckFields s (cmdInstall s args).1 := by
  simp only [cmdInstall]
  repeat' split
  all_goals first
    | exact deckFields_refl s
    | exact ⟨rfl, rfl⟩
    | (rename_i s2 c2 m2 heq
       obtain ⟨d1, r1, -, -, -, -, -, -, -⟩ := processCardAbility_bound _ _ _ _ _ _ _ heq
       exact ⟨d1, r1⟩)

theorem cmdDiscard_deck (s : GameState) (args : List String) :
    DeckFields s (cmdDiscard s args).1 := by
  simp only [cmdDiscard]
  repeat' split
  all_goals first
    | exact deckFields_refl s
    | exact ⟨rfl, rfl⟩

theorem cmdJackOut_deck (s : GameState) : DeckFields s (cmdJackOut s).1 := by
  simp only [cmdJackOut]
  repeat' split
  all_goals first
    | exact deckFields_refl s
    | exact ⟨rfl, rfl⟩

theorem processAiTurn_deck (s : GameState) : DeckFields s (processAiTurn s) := by
  simp only [processAiTurn]
  split
  all_goals exact ⟨rfl, rfl⟩

theorem turnStartPass_deck : ∀ (cs : List Card) (s : GameState),
    DeckFields s (turnStartPass s cs).1
  | [], s => deckFields_refl s
  | c :: rest, s => by
    unfold turnStartPass
    cases hpc : processCardAbility s (resetPerTurnFlag c) (some "turn_start") none with
    | error e => exact deckFields_refl s
    | ok r =>
      obtain ⟨s1, c1, m1⟩ := r
      obtain ⟨d1, r1, -, -, -, -, -, -, -⟩ :=
        processCardAbility_bound s (resetPerTurnFlag c) (some "turn_start") none s1 c1 m1 hpc
      exact deckFields_trans ⟨d1, r1⟩ (turnStartPass_deck rest s1)

theorem startTurnRunner_deck (s : GameState) : DeckFields s (startTurnRunner s).1 := by
  simp only [startTurnRunner]
  split
  · exact turnStartPass_deck _ _
  · exact turnStartPass_deck _ _

theorem startTurn_deck (s : GameState) : DeckFields s (startTurn s).1 := by
  simp only [startTurn]
  split
  · exact startTurnRunner_deck s
  next =>
    have h1 : DeckFields s (processAiTurn { s with
        turn_number := s.turn_number + 1, current_phase := GamePhase.START_TURN }) :=
      processAiTurn_deck _
    exact deckFields_trans (deckFields_trans h1 ⟨rfl, rfl⟩) (startTurnRunner_deck _)

theorem cmdEnd_deck (s : GameState) : DeckFields s (cmdEnd s).1 := by
  unfold cmdEnd
  repeat' split
  all_goals first
    | exact deckFields_refl s
    | exact ⟨rfl, rfl⟩
    | (rw [wrapStepResult_fst]; exact startTurn_deck _)

theorem cmdHelp_deck (s : GameState) (args : List String) : DeckFields s (cmdHelp s args).1 := by
  unfold cmdHelp
  repeat' split
  all_goals exact deckFields_refl s

theorem cmdMan_deck (s : GameState) (args : List String) : DeckFields s (cmdMan s args).1 := by
  unfold cmdMan
  repeat' split
  all_goals exact deckFields_refl s

theorem checkWin_deck (s : GameState) : DeckFields s (checkWinConditions s) := by
  unfold checkWinConditions
  repeat' split
  all_goals exact ⟨rfl, rfl⟩

theorem cmdDraw_deckCount (s : GameState) (h : DeckCount s) : DeckCount (cmdDraw s).1 := by
  unfold cmdDraw
  repeat' split
  all_goals try exact h
  next c rest heq =>
    unfold DeckCount at *
    rw [heq] at h
    simp only [List.length_cons] at h
    show s.runner_cards_remaining - 1 = _
    push_cast at h ⊢
    omega

/-- Case analysis on the command dispatcher: to prove a property of the
dispatch result it is enough to prove it for every handler. -/
theorem dispatchCommand_cases (P : GameState × CmdOutcome → Prop) (s : GameState)
    (cmd : String) (args : List String)
    (hhelp : P (cmdHelp s args)) (hdraw : P (cmdDraw s)) (hout : P (s, CmdOutcome.ok))
    (hinstall : P (cmdInstall s args)) (hrun : P (cmdRun s args))
    (hjack : P (cmdJackOut s)) (hend : P (cmdEnd s))
    (hdiscard : P (cmdDiscard s args)) (hsystem : P (cmdSystem s))
    (hman : P (cmdMan s args)) (hunknown : P (s, CmdOutcome.rejected)) :
    P (dispatchCommand s cmd args) := by
  unfold dispatchCommand
  by_cases h1 : cmd = "help"
  · rw [if_pos h1]; exact hhelp
  rw [if_neg h1]
  by_cases h2 : cmd = "draw"
  · rw [if_pos h2]; exact hdraw
  rw [if_neg h2]
  by_cases h3 : cmd = "hand"
  · rw [if_pos h3]; exact hout
  rw [if_neg h3]
  by_cases h4 : cmd = "install"
  · rw [if_pos h4]; exact hinstall
  rw [if_neg h4]
  by_cases h5 : cmd = "run"
  · rw [if_pos h5]; exact hrun
  rw [if_neg h5]
  by_cases h6 : cmd = "jack_out"
  · rw [if_pos h6]; exact hjack
  rw [if_neg h6]
  by_cases h7 : cmd = "end"
  · rw [if_pos h7]; exact hend
  rw [if_neg h7]
  by_cases h8 : cmd = "info"
  · rw [if_pos h8]; exact hout
  rw [if_neg h8]
  by_cases h9 : cmd = "discard"
  · rw [if_pos h9]; exact hdiscard
  rw [if_neg h9]
  by_cases h10 : cmd = "system"
  · rw [if_pos h10]; exact hsystem
  rw [if_neg h10]
  by_cases h11 : cmd = "installed"
  · rw [if_pos h11]; exact hout
  rw [if_neg h11]
  by_cases h12 : cmd = "credits"
  · rw [if_pos h12]; exact hout
  rw [if_neg h12]
  by_cases h13 : cmd = "memory"
  · rw [if_pos h13]; exact hout
  rw [if_neg h13]
  by_cases h14 : cmd = "man"
  · rw [if_pos h14]; exact hman
  rw [if_neg h14]
  exact hunknown

theorem dispatch_deckCount (s : GameState) (cmd : String) (args : List String)
    (h : DeckCount s) : DeckCount (dispatchCommand s cmd args).1 := by
  refine dispatchCommand_cases (fun r => DeckCount r.1) s cmd args ?_ ?_ ?_ ?_ ?_ ?_ ?_ ?_ ?_ ?_ ?_
  · exact deckCount_of_deckFields h (cmdHelp_deck s args)
  · exact cmdDraw_deckCount s h
  · exact h
  · exact deckCount_of_deckFields h (cmdInstall_deck s args)
  · exact deckCount_of_deckFields h (cmdRun_deck s args)
  · exact deckCount_of_deckFields h (cmdJackOut_deck s)
  · exact deckCount_of_deckFields h (cmdEnd_deck s)
  · exact deckCount_of_deckFields h (cmdDiscard_deck s args)
  · exact h
  · exact deckCount_of_deckFields h (cmdMan_deck s args)
  · exact h

theorem processCommand_deckCount (s : GameState) (cmd : String) (args : List String)
    (h : DeckCount s) : DeckCount (processCommand s cmd args).1 := by
  unfold processCommand
  have hw : DeckCount (withHistory s cmd args) := deckCount_of_deckFields h ⟨rfl, rfl⟩
  have hd : DeckCount (dispatchCommand (withHistory s cmd args) (pyLower cmd) args).1 :=
    dispatch_deckCount _ _ _ hw
  split
  · exact hw
  · split
    next s1 e heq =>
      rw [heq] at hd
      exact hd
    next s1 heq =>
      rw [heq] at hd
      split
      · exact deckCount_of_deckFields hd
          (deckFields_trans (checkWin_deck s1) ⟨rfl, rfl⟩)
      · exact deckCount_of_deckFields hd (checkWin_deck s1)
    next s1 heq =>
      rw [heq] at hd
      split
      · exact deckCount_of_deckFields hd
          (deckFields_trans (checkWin_deck s1) ⟨rfl, rfl⟩)
      · exact deckCount_of_deckFields hd (checkWin_deck s1)

theorem initDeck_deckCount (s : GameState) (cards : List Card) :
    DeckCount (initDeck s cards) := by
  unfold initDeck DeckCount
  rfl

theorem drawStartingHand_deckCount : ∀ (n : Nat) (s : GameState),
    DeckCount s → DeckCount (drawStartingHand n s)
  | 0, s, h => h
  | n+1, s, h => by
    unfold drawStartingHand
    split
    · exact h
    next c rest heq =>
      refine drawStartingHand_deckCount n _ ?_
      unfold DeckCount at *
      rw [heq] at h
      simp only [List.length_cons] at h
      show s.runner_cards_remaining - 1 = _
      push_cast at h ⊢
      omega

theorem preStartState_deckCount (cards : List Card) (seed : Nat) (hashF : String → Int)
    (rng : Rng) : DeckCount (preStartState cards seed hashF rng) :=
  processCommand_deckCount _ _ _
    (deckCount_of_deckFields
      (drawStartingHand_deckCount 5 _ (initDeck_deckCount (initBase seed hashF rng) cards))
      ⟨rfl, rfl⟩)

theorem initGame_deckCount (cards : List Card) (seed : Nat) (hashF : String → Int)
    (rng : Rng) (g : GameState) (h : initGame cards seed hashF rng = Except.ok g) :
    DeckCount g := by
  unfold initGame at h
  have hst := startTurn_deck (preStartState cards seed hashF rng)
  split at h
  next s4 heq =>
    injection h with h4
    subst h4
    rw [heq] at hst
    exact deckCount_of_deckFields (preStartState_deckCount cards seed hashF rng) hst
  next s4 e heq => exact Except.noConfusion h

/-- When the success path of _complete_run returns without an escaping
exception, the run state has been cleared. -/
theorem completeRunSuccess_run (s : GameState) (run : RunState)
    (h : (completeRunSuccess s run).2 = none) :
    (completeRunSuccess s run).1.current_run = none := by
  unfold completeRunSuccess at h ⊢
  rcases htr : triggerAll "successful_run" (accessServer s run.server)
      (accessServer s run.server).played_cards with ⟨s2, played2, e2⟩
  rw [htr] at h
  cases e2 with
  | some e => exact Option.noConfusion h
  | none => rfl

/-- Before turn 3, _generate_ice_for_server produces exactly one piece of ICE
for the central server R&D (ice_count_by_turn gives 1 for centrals, and the
cap min(1, ·) keeps it at 1). -/
theorem generateIce_early_central (s : GameState) (hturn : s.turn_number < 3) :
    (generateIceForServer s "R&D").length = 1 := by
  simp [generateIceForServer, hturn]
  decide

/-- With one piece of generated ICE, no bypass charge and nothing installed,
the run body stalls in the first ICE encounter and returns normally. -/
theorem runBody_early_stall (s : GameState) (i : Ice)
    (hg : generateIceForServer { s with clicks_remaining := s.clicks_remaining - 1 } "R&D"
      = [i])
    (hbp : s.bypass_next_ice = 0)
    (hpl : s.played_cards = []) :
    runBody s "R&D" "standard" =
      ({ s with
         clicks_remaining := s.clicks_remaining - 1,
         current_run := some { server := "R&D", approach := "standard",
                               state := "ice_encountered", ice_index := 0,
                               current_ice := some i,
                               ice_encountered := [i] } }, CmdOutcome.ok) := by
  simp only [runBody]
  rw [if_neg (by decide : ¬ ("standard" : String) = "stealth")]
  rw [hg]
  simp [processNextIce, hbp, hpl, getInstalledBreakers, collectBreakResults, wrapStepResult]

/-- Re-inserting a popped element at its index restores the original list
(the rollback performed by _cmd_discard when the click check fails). -/
theorem insertAt_popAt {α : Type} : ∀ (i : Nat) (l : List α) (c : α) (l2 : List α),
    popAt i l = some (c, l2) → insertAt i c l2 = l
  | 0, [], _, _, h => by simp [popAt] at h
  | _+1, [], _, _, h => by simp [popAt] at h
  | 0, x :: xs, c, l2, h => by
    simp only [popAt, Option.some.injEq, Prod.mk.injEq] at h
    obtain ⟨h1, h2⟩ := h
    subst h1
    subst h2
    cases xs <;> rfl
  | i+1, x :: xs, c, l2, h => by
    simp only [popAt] at h
    cases hp : popAt i xs with
    | none =>
      rw [hp] at h
      simp at h
    | some p =>
      obtain ⟨pc, pl⟩ := p
      rw [hp] at h
      have h3 : (pc, x :: pl) = (c, l2) := Option.some.inj h
      injection h3 with h1 h2
      subst h1
      subst h2
      simp only [insertAt]
      rw [insertAt_popAt i xs pc pl hp]

theorem runBody_not_rejected (s : GameState) (t a : String) :
    (runBody s t a).2 ≠ CmdOutcome.rejected := by
  simp only [runBody]
  repeat' split
  all_goals exact wrapStepResult_snd _

/-!  Every handler that rejects leaves the player-visible state intact. -/

theorem cmdHelp_rejected (s : GameState) (args : List String) :
    (cmdHelp s args).2 = CmdOutcome.rejected → SamePlayerState s (cmdHelp s args).1 := by
  unfold cmdHelp
  repeat' split
  all_goals exact fun _ => samePS_refl s

theorem cmdMan_rejected (s : GameState) (args : List String) :
    (cmdMan s args).2 = CmdOutcome.rejected → SamePlayerState s (cmdMan s args).1 := by
  unfold cmdMan
  repeat' split
  all_goals exact fun _ => samePS_refl s

theorem cmdDraw_rejected (s : GameState) :
    (cmdDraw s).2 = CmdOutcome.rejected → SamePlayerState s (cmdDraw s).1 := by
  unfold cmdDraw
  repeat' split
  all_goals first
    | exact fun _ => samePS_refl s
    | exact fun h => CmdOutcome.noConfusion h

theorem cmdInstall_rejected (s : GameState) (args : List String) :
    (cmdInstall s args).2 = CmdOutcome.rejected → SamePlayerState s (cmdInstall s args).1 := by
  simp only [cmdInstall]
  repeat' split
  all_goals first
    | exact fun _ => samePS_refl s
    | exact fun h => CmdOutcome.noConfusion h

theorem cmdRun_rejected (s : GameState) (args : List String) :
    (cmdRun s args).2 = CmdOutcome.rejected → SamePlayerState s (cmdRun s args).1 := by
  simp only [cmdRun]
  repeat' split
  all_goals first
    | exact fun _ => samePS_refl s
    | exact fun h => absurd h (runBody_not_rejected _ _ _)

theorem cmdJackOut_rejected (s : GameState) :
    (cmdJackOut s).2 = CmdOutcome.rejected → SamePlayerState s (cmdJackOut s).1 := by
  simp only [cmdJackOut]
  repeat' split
  all_goals first
    | exact fun _ => samePS_refl s
    | exact fun h => CmdOutcome.noConfusion h

theorem cmdEnd_rejected (s : GameState) :
    (cmdEnd s).2 = CmdOutcome.rejected → SamePlayerState s (cmdEnd s).1 := by
  unfold cmdEnd
  repeat' split
  all_goals first
    | exact fun _ => samePS_refl s
    | exact fun _ => ⟨rfl, rfl, rfl, rfl, rfl, rfl, rfl, rfl, rfl, rfl⟩
    | exact fun h => absurd h (wrapStepResult_snd _)

theorem cmdDiscard_rejected (s : GameState) (args : List String) :
    (cmdDiscard s args).2 = CmdOutcome.rejected → SamePlayerState s (cmdDiscard s args).1 := by
  simp only [cmdDiscard]
  repeat' split
  all_goals first
    | exact fun _ => samePS_refl s
    | exact fun h => CmdOutcome.noConfusion h
    | (rename_i heq hact hclick
       exact fun _ =>
        ⟨rfl, rfl, rfl, rfl, insertAt_popAt _ _ _ _ heq, rfl, rfl, rfl, rfl, rfl⟩)

theorem dispatch_rejected (s : GameState) (cmd : String) (args : List String) :
    (dispatchCommand s cmd args).2 = CmdOutcome.rejected →
      SamePlayerState s (dispatchCommand s cmd args).1 := by
  refine dispatchCommand_cases
    (fun r => r.2 = CmdOutcome.rejected → SamePlayerState s r.1) s cmd args
    ?_ ?_ ?_ ?_ ?_ ?_ ?_ ?_ ?_ ?_ ?_
  · exact cmdHelp_rejected s args
  · exact cmdDraw_rejected s
  · exact fun h => CmdOutcome.noConfusion h
  · exact cmdInstall_rejected s args
  · exact cmdRun_rejected s args
  · exact cmdJackOut_rejected s
  · exact cmdEnd_rejected s
  · exact cmdDiscard_rejected s args
  · exact fun h => CmdOutcome.noConfusion h
  · exact cmdMan_rejected s args
  · exact fun _ => samePS_refl s

theorem resourcesOk_of_samePS {s t : GameState} (h : ResourcesOk s)
    (hp : SamePlayerState s t) : ResourcesOk t := by
  unfold ResourcesOk at h ⊢
  obtain ⟨-, h2, h3, h4, -, -, -, -, -, -⟩ := hp
  rw [h2, h3, h4]
  exact h

/-- The deduction step of _cmd_install keeps memory within capacity (it was
checked just before) and cannot push credits negative (the credit cost is at
most the card cost, which was checked to be affordable). -/
theorem installDeducted_resources (s : GameState) (card : Card) (h : ResourcesOk s)
    (hcred : ¬ s.player_credits < (card.cost : Int))
    (hmem : ¬ (pyLower card.type_ = "program" ∧
      s.memory_units_used + card.mu > s.memory_units_available)) :
    ResourcesOk (installDeducted s card) := by
  unfold ResourcesOk at h ⊢
  unfold installDeducted
  obtain ⟨hm, hc⟩ := h
  constructor
  · show s.memory_units_used + (if pyLower card.type_ = "program" then card.mu else 0) ≤
      s.memory_units_available
    by_cases hP : pyLower card.type_ = "program"
    · rw [if_pos hP]
      have hmem2 : ¬ s.memory_units_used + card.mu > s.memory_units_available :=
        fun hgt => hmem ⟨hP, hgt⟩
      omega
    · rw [if_neg hP]
      omega
  · show 0 ≤ s.player_credits - ((card.cost - (installPay s card).2 : Nat) : Int)
    omega

theorem cmdInstall_resources (s : GameState) (args : List String) (h : ResourcesOk s) :
    ResourcesOk (cmdInstall s args).1 := by
  simp only [cmdInstall]
  split
  · exact h
  · split
    · exact h
    · split
      · exact h
      · split
        · exact h
        · split
          · exact h
          · split
            · exact h
            · split
              · exact h
              · next hcred =>
                split
                · exact h
                · next hmem =>
                  split
                  · exact installDeducted_resources _ _ h hcred hmem
                  · next s2 c2 m2 heq =>
                    obtain ⟨-, -, hu, ha, hc, -, -, -, -⟩ :=
                      processCardAbility_bound _ _ _ _ _ _ _ heq
                    obtain ⟨hm1, hc1⟩ := installDeducted_resources _ _ h hcred hmem
                    have g1 : s2.memory_units_used ≤ s2.memory_units_available := by
                      omega
                    have g2 : 0 ≤ s2.player_credits := by omega
                    exact ⟨g1, g2⟩

/-- C2, counterexample: from the initial state (turn 1), run R&D stalls in an
ICE encounter leaving current_run set; the very next run command is accepted
and creates a new RunState for HQ even though the previous RunState was never
destroyed — _cmd_run does not check current_run. -/
theorem c2_counterexample :
    runFirst.1.current_run.isSome = true ∧
    runFirst.1.current_run.map RunState.state = some "ice_encountered" ∧
    runSecond.2 = CmdOutcome.ok ∧
    runSecond.1.current_run.map RunState.server = some "HQ" := by
  decide

/-- C3: with seed 5, the fixed command sequence [install 1, run R&D], and the
same zero random streams, two executions that differ only in the value of the
process-salted string hash produce different runner agenda totals (1 vs 0):
_generate_ice_for_server keys the ICE template on hash(server), which
random.seed does not control. -/
theorem c3_hash_divergence :
    (c3exec 1).runner_agenda_points = 1 ∧ (c3exec 0).runner_agenda_points = 0 := by
  decide

/-- C4: the ability engine raises instead of degrading to no effect.  First
input: the shipped catalog card Data Siphon fired on its own successful_run
trigger hits the call to the nonexistent method self._draw_card
(AttributeError).  Second input: a well-formed break_ice descriptor with no
subroutines key reaches the comparison len(...) > None (TypeError). -/
theorem c4_ability_engine_raises :
    processCardAbility {} dataSiphon (some "successful_run") none =
      Except.error "AttributeError: TerminalGame object has no attribute _draw_card" ∧
    processCardAbility {} noSubsBreaker (some "encounter_ice")
        (some { ice := some barrierIce }) =
      Except.error "TypeError: not supported between instances of int and NoneType" := by
  exact ⟨rfl, rfl⟩

/-- C6, counterexample: at the freshly initialized state (turn 1 < 3, ACTION
phase, 4 clicks), run R&D generates one obstacle, not zero, and the run does
not resolve to success: it stalls in the obstacle encounter with no agenda
access having happened. -/
theorem c6_counterexample :
    initJunk.turn_number = 1 ∧
    initJunk.current_phase = GamePhase.ACTION ∧
    initJunk.clicks_remaining = 4 ∧
    runFirst.1.current_run.map (fun r => r.ice_encountered.length) = some 1 ∧
    runFirst.1.current_run.map RunState.state = some "ice_encountered" ∧
    runFirst.1.runner_agenda_points = 0 := by
  decide

/-- C8: from an ACTION-phase state with 4 clicks, 5 credits, memory 4/0, a
5-card hand and a non-empty deck, the draw command moves the former top deck
card to the end of the hand (hand size 6), spends one click (3 left), and
leaves the deck exactly one card shorter. -/
theorem c8_draw_scenario (s : GameState) (c : Card) (rest : List Card)
    (hgo : s.game_over = false)
    (hph : s.current_phase = GamePhase.ACTION)
    (hck : s.clicks_remaining = 4)
    (hcr : s.player_credits = 5)
    (hma : s.memory_units_available = 4)
    (hmu : s.memory_units_used = 0)
    (hhand : s.hand_cards.length = 5)
    (hdeck : s.player_deck = c :: rest) :
    (processCommand s "draw" []).1.hand_cards = s.hand_cards ++ [c] ∧
    (processCommand s "draw" []).1.hand_cards.length = 6 ∧
    (processCommand s "draw" []).1.clicks_remaining = 3 ∧
    (processCommand s "draw" []).1.player_deck = rest := by
  have hck1 : (1 : Nat) ≤ s.clicks_remaining := by omega
  have hdraw := cmdDraw_ok (withHistory s "draw" []) c rest hph hck1 hdeck
  have h2 : dispatchCommand (withHistory s "draw" []) (pyLower "draw") [] =
      cmdDraw (withHistory s "draw" []) := rfl
  obtain ⟨hps, -⟩ := processCommand_fields s "draw" [] _ CmdOutcome.ok hgo
    (by intro e h; cases h) (h2.trans hdraw)
  obtain ⟨q1, q2, q3, q4, q5, q6, q7, q8, q9, q10⟩ := hps
  simp only [withHistory] at q1 q5 q6
  refine ⟨q5, ?_, ?_, q6⟩
  · rw [q5, List.length_append, hhand]; rfl
  · rw [q1, hck]

/-- C8 witness: the concrete initJunk state satisfies every hypothesis of the
scenario and the draw command behaves as claimed there. -/
theorem c8_witness :
    initJunk.game_over = false ∧
    initJunk.current_phase = GamePhase.ACTION ∧
    initJunk.clicks_remaining = 4 ∧
    initJunk.player_deck = [junkCard] ∧
    (processCommand initJunk "draw" []).1.hand_cards = initJunk.hand_cards ++ [junkCard] ∧
    (processCommand initJunk "draw" []).1.hand_cards.length = 6 ∧
    (processCommand initJunk "draw" []).1.clicks_remaining = 3 ∧
    (processCommand initJunk "draw" []).1.player_deck = [] := by
  refine ⟨by decide, by decide, by decide, by decide, ?_⟩
  exact c8_draw_scenario initJunk junkCard [] (by decide) (by decide) (by decide)
    (by decide) (by decide) (by decide) (by decide) (by decide)

/-- The failing code-gate branch of cmdJackOut. -/
theorem cmdJackOut_codeGate_fail (s : GameState) (run : RunState) (ice : Ice)
    (hrun : s.current_run = some run)
    (hstate : run.state = "ice_encountered")
    (hice : run.current_ice = some ice)
    (htype : pyLower ice.type_ = "code gate")
    (hfail : ¬ s.rng.floats s.floatIdx ≤ jackOutSuccessChance s run ice) :
    cmdJackOut s = ({ s with
        floatIdx := s.floatIdx + 1,
        player_credits := max 0 (s.player_credits - 2) }, CmdOutcome.ok) := by
  unfold cmdJackOut
  rw [hrun]
  simp only [hstate, hice, htype]
  simp [if_neg hfail]

/-- C10: whenever a jack-out attempt fails while encountering a code-gate
obstacle, the credit total becomes max(0, credits - 2) (the penalty never
drives credits negative) and current_run is unchanged — the same obstacle is
still being encountered. -/
theorem c10_jack_out_code_gate (s : GameState) (run : RunState) (ice : Ice)
    (hgo : s.game_over = false)
    (hrun : s.current_run = some run)
    (hstate : run.state = "ice_encountered")
    (hice : run.current_ice = some ice)
    (htype : pyLower ice.type_ = "code gate")
    (hfail : ¬ s.rng.floats s.floatIdx ≤ jackOutSuccessChance s run ice) :
    (processCommand s "jack_out" []).1.player_credits = max 0 (s.player_credits - 2) ∧
    (processCommand s "jack_out" []).1.current_run = s.current_run := by
  have hjk := cmdJackOut_codeGate_fail (withHistory s "jack_out" []) run ice hrun hstate hice
    htype hfail
  have h2 : dispatchCommand (withHistory s "jack_out" []) (pyLower "jack_out") [] =
      cmdJackOut (withHistory s "jack_out" []) := rfl
  obtain ⟨hps, -⟩ := processCommand_fields s "jack_out" [] _ CmdOutcome.ok hgo
    (by intro e h; cases h) (h2.trans hjk)
  obtain ⟨q1, q2, q3, q4, q5, q6, q7, q8, q9, q10⟩ := hps
  simp only [withHistory] at q2 q8
  exact ⟨q2, q8⟩

/-- C10 witness: at the concrete stalled-run state, the failed jack-out
against Enigma (chance 2/5, roll 1/2) costs 2 credits (5 to 3) and leaves the
same run in place. -/
theorem c10_witness :
    (processCommand jackOutState "jack_out" []).1.player_credits =
      max 0 (jackOutState.player_credits - 2) ∧
    (processCommand jackOutState "jack_out" []).1.current_run = jackOutState.current_run :=
  c10_jack_out_code_gate jackOutState jackOutRun enigmaIce (by decide) (by decide) (by decide)
    (by decide) (by decide) (by decide)

/-- Every action branch of _perform_action spends exactly one click when a
click is available: each guard requires clicks > 0 and every fall-through
ends in the default basic action, which also costs one click. -/
theorem aiDefaultAction_clicks (ai : AIState) (k : Nat) (h : 0 < ai.clicks) :
    (aiDefaultAction ai k).1.clicks = ai.clicks - 1 := by
  unfold aiDefaultAction
  rw [if_pos h]

theorem aiAdvance_clicks (ai : AIState) (nats : Nat → Nat) (k : Nat) (h : 0 < ai.clicks) :
    (aiAdvance ai nats k).1.clicks = ai.clicks - 1 := by
  unfold aiAdvance
  repeat' split
  all_goals first
    | rfl
    | exact aiDefaultAction_clicks _ _ h

theorem performAction_clicks (ai : AIState) (action : String) (nats : Nat → Nat) (k : Nat)
    (h : 0 < ai.clicks) :
    (performAction ai action nats k).1.clicks = ai.clicks - 1 := by
  unfold performAction
  repeat' split
  all_goals first
    | rfl
    | exact aiDefaultAction_clicks _ _ h
    | exact aiAdvance_clicks _ _ _ h

/-- The take_turn action loop drives the click budget to exactly zero when
given at least as much fuel as the starting budget. -/
theorem takeTurnLoop_clicks (nats : Nat → Nat) :
    ∀ (fuel : Nat) (ai : AIState) (k : Nat), 0 ≤ ai.clicks → ai.clicks ≤ (fuel : Int) →
      (takeTurnLoop nats fuel ai k).1.clicks = 0
  | 0, ai, k, h0, hf => by
    unfold takeTurnLoop
    simp only []
    omega
  | fuel+1, ai, k, h0, hf => by
    unfold takeTurnLoop
    split
    next hpos =>
      have hp := performAction_clicks ai (decideNextAction ai nats k).1 nats
        (decideNextAction ai nats k).2 hpos
      exact takeTurnLoop_clicks nats fuel _ _ (by omega) (by rw [hp]; push_cast; omega)
    next hpos => simp only []; omega

theorem aiProcessDiscard_hand (ai : AIState) : (aiProcessDiscard ai).hand.length ≤ 5 := by
  unfold aiProcessDiscard
  split
  next h => simp
  next h => simpa using Nat.le_of_not_lt h

theorem aiProcessDiscard_clicks (ai : AIState) : (aiProcessDiscard ai).clicks = ai.clicks := by
  unfold aiProcessDiscard
  split <;> rfl

/-- C7: one call of take_turn spends exactly the click budget it started
with (the budget ends at zero, never negative; each performed action costs
exactly one click), and after the end-of-turn trim the hand has at most 5
cards. -/
theorem c7_ai_budget_and_hand (ai : AIState) (nats : Nat → Nat) (k : Nat)
    (h0 : 0 ≤ ai.clicks) :
    (takeTurn ai nats k).1.clicks = 0 ∧
    (takeTurn ai nats k).1.hand.length ≤ 5 ∧
    (∀ (action : String) (k2 : Nat), 0 < ai.clicks →
      (performAction ai action nats k2).1.clicks = ai.clicks - 1) := by
  refine ⟨?_, ?_, fun action k2 hpos => performAction_clicks ai action nats k2 hpos⟩
  · show (aiProcessDiscard (takeTurnLoop nats ai.clicks.toNat ai k).1).clicks = 0
    rw [aiProcessDiscard_clicks]
    exact takeTurnLoop_clicks nats ai.clicks.toNat ai k h0 (by omega)
  · exact aiProcessDiscard_hand _

/-- C7 witness: the freshly constructed AI (3 clicks, empty hand) ends its
turn with zero clicks and a legal hand. -/
theorem c7_witness :
    (takeTurn {} (fun _ => 0) 0).1.clicks = 0 ∧
    (takeTurn {} (fun _ => 0) 0).1.hand.length ≤ 5 ∧
    (∀ (action : String) (k2 : Nat), 0 < ({} : AIState).clicks →
      (performAction {} action (fun _ => 0) k2).1.clicks = ({} : AIState).clicks - 1) :=
  c7_ai_budget_and_hand {} (fun _ => 0) 0 (by decide)

/-- C9: after initialization and after every processed command, the counter
runner_cards_remaining equals the length of player_deck — the starting-hand
draws and the draw command decrement the counter exactly when they remove
the top deck card, and no other operation changes either quantity. -/
theorem c9_deck_counter_invariant :
    (∀ (cards : List Card) (seed : Nat) (hashF : String → Int) (rng : Rng) (g : GameState),
      initGame cards seed hashF rng = Except.ok g → DeckCount g) ∧
    (∀ (s : GameState) (cmd : String) (args : List String),
      DeckCount s → DeckCount (processCommand s cmd args).1) :=
  ⟨fun cards seed hashF rng g h => initGame_deckCount cards seed hashF rng g h,
   fun s cmd args h => processCommand_deckCount s cmd args h⟩

/-- C9 witness: the invariant holds at the concrete initialized state and is
kept by a concrete draw command. -/
theorem c9_witness :
    DeckCount initJunk ∧ DeckCount (processCommand initJunk "draw" []).1 :=
  ⟨c9_deck_counter_invariant.1 junkDeck 0 (fun _ => 0) zeroRng initJunk rfl,
   c9_deck_counter_invariant.2 initJunk "draw" [] (by decide)⟩

/-- C2 (amended): the run command does not check current_run, so a new
RunState can be created over a live one; but whenever _complete_run returns
normally (no exception escaped, second component none), the RunState has been
destroyed — no run state outlives its resolution through _complete_run. -/
theorem c2_run_destroyed_on_complete (s : GameState) (b : Bool)
    (h : (completeRun s b).2 = none) : (completeRun s b).1.current_run = none := by
  unfold completeRun at h ⊢
  cases hr : s.current_run with
  | none =>
    rw [hr] at h
    exact Option.noConfusion h
  | some run =>
    rw [hr] at h
    cases b with
    | false => rfl
    | true => exact completeRunSuccess_run s run h

/-- C2 witness: at the concrete mid-run state, _complete_run with success
returns normally and the run state is gone. -/
theorem c2_witness :
    (completeRun jackOutState true).2 = none ∧
    (completeRun jackOutState true).1.current_run = none :=
  ⟨by decide, c2_run_destroyed_on_complete jackOutState true (by decide)⟩

/-- C5: an install command processed from any state satisfying the resource
invariant (memory within capacity, non-negative credits) leaves the invariant
intact, whether the install succeeds, is rejected, or the install ability
raises. -/
theorem c5_install_preserves_resources (s : GameState) (args : List String)
    (h : ResourcesOk s) : ResourcesOk (processCommand s "install" args).1 := by
  unfold processCommand
  have hw : ResourcesOk (withHistory s "install" args) :=
    resourcesOk_of_samePS h (samePS_withHistory s "install" args)
  have hd : dispatchCommand (withHistory s "install" args) (pyLower "install") args =
      cmdInstall (withHistory s "install" args) args := rfl
  rw [hd]
  have hci : ResourcesOk (cmdInstall (withHistory s "install" args) args).1 :=
    cmdInstall_resources _ args hw
  split
  · exact hw
  · split
    next s1 e heq =>
      rw [heq] at hci
      exact hci
    next s1 heq =>
      rw [heq] at hci
      split
      · exact resourcesOk_of_samePS hci
          (samePS_trans (samePS_checkWin s1) (samePS_displayGameOver _))
      · exact resourcesOk_of_samePS hci (samePS_checkWin s1)
    next s1 heq =>
      rw [heq] at hci
      split
      · exact resourcesOk_of_samePS hci
          (samePS_trans (samePS_checkWin s1) (samePS_displayGameOver _))
      · exact resourcesOk_of_samePS hci (samePS_checkWin s1)

/-- C5 witness: the invariant holds at the concrete initialized state and
survives an install command there. -/
theorem c5_witness :
    ResourcesOk initJunk ∧ ResourcesOk (processCommand initJunk "install" ["1"]).1 :=
  ⟨by decide, c5_install_preserves_resources initJunk ["1"] (by decide)⟩

/-- C6 (amended): before turn 3 a run on the central server R&D generates
exactly one obstacle, not zero, and with no bypass charge and nothing
installed the run does not resolve to success: it stalls encountering that
single obstacle. -/
theorem c6_early_central_run (s : GameState)
    (hph : s.current_phase = GamePhase.ACTION)
    (hturn : s.turn_number < 3) (hck : 1 ≤ s.clicks_remaining)
    (hbp : s.bypass_next_ice = 0) (hpl : s.played_cards = []) :
    (generateIceForServer { s with clicks_remaining := s.clicks_remaining - 1 } "R&D").length
      = 1 ∧
    ∃ i : Ice,
      (cmdRun s ["R&D"]).1.current_run =
        some { server := "R&D", approach := "standard", state := "ice_encountered",
               ice_index := 0, current_ice := some i, ice_encountered := [i] } ∧
      (cmdRun s ["R&D"]).2 = CmdOutcome.ok := by
  have hlen : (generateIceForServer
      { s with clicks_remaining := s.clicks_remaining - 1 } "R&D").length = 1 :=
    generateIce_early_central _ hturn
  obtain ⟨i, hg⟩ := List.length_eq_one.mp hlen
  have hcmd : cmdRun s ["R&D"] =
      if s.clicks_remaining ≤ 0 then (s, CmdOutcome.rejected)
      else runBody s "R&D" "standard" := rfl
  have hrb := runBody_early_stall s i hg hbp hpl
  refine ⟨hlen, i, ?_, ?_⟩ <;>
    rw [hcmd, if_neg (by omega : ¬ s.clicks_remaining ≤ 0), hrb] <;> rfl

/-- C6 witness: the freshly initialized state satisfies every hypothesis and
its first R&D run exhibits the single stalled obstacle. -/
theorem c6_witness :
    initJunk.current_phase = GamePhase.ACTION ∧ initJunk.turn_number < 3 ∧
    1 ≤ initJunk.clicks_remaining ∧ initJunk.bypass_next_ice = 0 ∧
    initJunk.played_cards = [] ∧
    ((generateIceForServer { initJunk with
        clicks_remaining := initJunk.clicks_remaining - 1 } "R&D").length = 1 ∧
     ∃ i : Ice,
      (cmdRun initJunk ["R&D"]).1.current_run =
        some { server := "R&D", approach := "standard", state := "ice_encountered",
               ice_index := 0, current_ice := some i, ice_encountered := [i] } ∧
      (cmdRun initJunk ["R&D"]).2 = CmdOutcome.ok) :=
  ⟨by decide, by decide, by decide, by decide, by decide,
   c6_early_central_run initJunk (by decide) (by decide) (by decide) (by decide) (by decide)⟩

/-- C1: whenever process_command reports a rejected command — any failed
precondition of any handler — the player-visible state (clicks, credits,
memory used and available, hand, deck, installed cards, run state and both
agenda totals) is exactly what it was before the call; no partial mutation
survives a rejection. -/
theorem c1_rejection_preserves_state (s : GameState) (cmd : String) (args : List String) :
    (processCommand s cmd args).2 = CmdOutcome.rejected →
      SamePlayerState s (processCommand s cmd args).1 := by
  unfold processCommand
  have hw := samePS_withHistory s cmd args
  split
  · exact fun _ => hw
  · have hd := dispatch_rejected (withHistory s cmd args) (pyLower cmd) args
    split
    next s1 e heq =>
      exact fun h => CmdOutcome.noConfusion h
    next s1 heq =>
      split
      · exact fun h => CmdOutcome.noConfusion h
      · exact fun h => CmdOutcome.noConfusion h
    next s1 heq =>
      rw [heq] at hd
      have hall : SamePlayerState s s1 := samePS_trans hw (hd rfl)
      split
      · exact fun _ => samePS_trans hall
          (samePS_trans (samePS_checkWin s1) (samePS_displayGameOver _))
      · exact fun _ => samePS_trans hall (samePS_checkWin s1)

/-- C1 witness: an install with an out-of-range index is rejected and the
player-visible state is untouched. -/
theorem c1_witness :
    (processCommand initJunk "install" ["99"]).2 = CmdOutcome.rejected ∧
    SamePlayerState initJunk (processCommand initJunk "install" ["99"]).1 :=
  ⟨by decide, c1_rejection_preserves_state initJunk "install" ["99"] (by decide)⟩

end TerminalGame
